import Mathlib

/-!
Shallow embedding of the GameTunnel transport core
(repository `it2konst/gametunnel-core`, package `gametunnel`).

Bytes are modelled as natural numbers; byte strings as `List ℕ`.
Machine-integer truncation (`uint16`, `uint32`) is made explicit with
`% 2^16` / `% 2^32`.  Randomness (`mrand.Intn`, `crypto/rand`) and
external cryptographic primitives (`curve25519`, `hkdf`, `sha256`,
`chacha20poly1305`) are passed in as explicit parameters; everything
written in the repository itself is translated directly.
-/

namespace GameTunnel

/-- Big-endian byte encoding of the low `k` bytes of `n`
(`binary.BigEndian.PutUintXX`). -/
def beBytes : ℕ → ℕ → List ℕ
  | 0, _ => []
  | k + 1, n => beBytes k (n / 256) ++ [n % 256]

/-- Big-endian value of a byte string (`binary.BigEndian.UintXX`). -/
def beVal (l : List ℕ) : ℕ :=
  l.foldl (fun a b => a * 256 + b) 0

theorem beBytes_length (k n : ℕ) : (beBytes k n).length = k := by
  induction k generalizing n with
  | zero => simp [beBytes]
  | succ k ih => simp [beBytes, ih]

theorem beVal_append_singleton (l : List ℕ) (b : ℕ) :
    beVal (l ++ [b]) = beVal l * 256 + b := by
  simp [beVal]

theorem beVal_beBytes (k n : ℕ) : beVal (beBytes k n) = n % 256 ^ k := by
  induction k generalizing n with
  | zero => simp [beBytes, beVal, Nat.mod_one]
  | succ k ih =>
    rw [beBytes, beVal_append_singleton, ih, pow_succ,
      Nat.mul_comm (256 ^ k) 256, Nat.mod_mul]
    ring

/-- Reads `k` bytes of `data` starting at `off` (a guarded Go slice
`data[off : off+k]`); `none` is the out-of-bounds branch. -/
def readBytes (data : List ℕ) (off k : ℕ) : Option (List ℕ) :=
  if off + k ≤ data.length then some ((data.drop off).take k) else none

/-- Reads a big-endian integer of `k` bytes at offset `off`. -/
def readBE (data : List ℕ) (off k : ℕ) : Option ℕ :=
  (readBytes data off k).map beVal

/-! ## Configuration (`config.go`) -/

/-- Config — transport configuration record (`config.go`).  The Go
`uint32` fields are modelled as `ℕ`; `Obfuscation`/`Priority` keep their
Go enum numbering. -/
structure Config where
  obfuscation : ℕ
  priority : ℕ
  mtu : ℕ
  maxStreams : ℕ
  connectionIdLength : ℕ
  enablePadding : Bool
  paddingMinSize : ℕ
  paddingMaxSize : ℕ
  handshakeTimeout : ℕ
  keepAliveInterval : ℕ
  key : String
  deriving DecidableEq

/-- ObfuscationMode QUIC_MIMIC. -/
def ObfuscationMode_QUIC_MIMIC : ℕ := 0

/-- PriorityMode NONE. -/
def PriorityMode_NONE : ℕ := 0

/-- PriorityMode GAMING. -/
def PriorityMode_GAMING : ℕ := 1

/-- PriorityMode STREAMING. -/
def PriorityMode_STREAMING : ℕ := 2

/-- DefaultConfig (`config.go`). -/
def defaultConfig : Config where
  obfuscation := ObfuscationMode_QUIC_MIMIC
  priority := PriorityMode_GAMING
  mtu := 1400
  maxStreams := 16
  connectionIdLength := 8
  enablePadding := true
  paddingMinSize := 40
  paddingMaxSize := 200
  handshakeTimeout := 5
  keepAliveInterval := 15
  key := ""

/-- First clamp of Config.Validate (`config.go`): the MTU range check. -/
def validateMtuStep (c : Config) : Config :=
  if c.mtu < 576 ∨ 1500 < c.mtu then { c with mtu := 1400 } else c

/-- Second clamp of Config.Validate: the MaxStreams range check. -/
def validateStreamsStep (c : Config) : Config :=
  if c.maxStreams = 0 ∨ 256 < c.maxStreams then { c with maxStreams := 16 }
  else c

/-- Third clamp of Config.Validate: the ConnectionIdLength range check. -/
def validateCidStep (c : Config) : Config :=
  if c.connectionIdLength < 4 ∨ 20 < c.connectionIdLength then
    { c with connectionIdLength := 8 }
  else c

/-- Fourth clamp of Config.Validate: the padding range check. -/
def validatePadStep (c : Config) : Config :=
  if c.paddingMaxSize < c.paddingMinSize then
    { c with paddingMinSize := 40, paddingMaxSize := 200 }
  else c

/-- Fifth clamp of Config.Validate: the HandshakeTimeout check. -/
def validateTimeoutStep (c : Config) : Config :=
  if c.handshakeTimeout = 0 then { c with handshakeTimeout := 5 } else c

/-- Config.Validate (`config.go`): out-of-range values are clamped back
to defaults, one `if` statement after the other; the Go method mutates
in place and returns nil, modelled here as returning the fixed record. -/
def Config.validate (c : Config) : Config :=
  validateTimeoutStep (validatePadStep (validateCidStep
    (validateStreamsStep (validateMtuStep c))))

/-- A configuration satisfying the bounds `Config.validate` establishes. -/
def Config.Valid (c : Config) : Prop :=
  576 ≤ c.mtu ∧ c.mtu ≤ 1500 ∧
  1 ≤ c.maxStreams ∧ c.maxStreams ≤ 256 ∧
  4 ≤ c.connectionIdLength ∧ c.connectionIdLength ≤ 20 ∧
  c.paddingMinSize ≤ c.paddingMaxSize ∧
  1 ≤ c.handshakeTimeout

instance (c : Config) : Decidable c.Valid := by
  unfold Config.Valid
  infer_instance

theorem validate_valid (c : Config) : c.validate.Valid := by
  unfold Config.validate Config.Valid
  unfold validateTimeoutStep validatePadStep validateCidStep
    validateStreamsStep validateMtuStep
  split_ifs <;> simp_all <;> omega

/-- Config.GetMaxPayloadSize (`config.go`): `uint32` arithmetic, so the
subtraction is taken modulo `2^32`. -/
def Config.getMaxPayloadSize (c : Config) : ℕ :=
  let headerSize : ℤ := 1 + 4 + c.connectionIdLength + 4 + 2
  let authTagSize : ℤ := 16
  let maxPaddingOverhead : ℤ := if c.enablePadding then 2 else 0
  (((c.mtu : ℤ) - headerSize - authTagSize - maxPaddingOverhead) %
    (2 ^ 32 : ℤ)).toNat

/-- On validated configurations `GetMaxPayloadSize` never wraps. -/
theorem getMaxPayloadSize_of_valid (c : Config) (h : c.Valid) :
    c.getMaxPayloadSize =
      c.mtu - (11 + c.connectionIdLength) - 16 -
        (if c.enablePadding then 2 else 0) := by
  obtain ⟨h1, h2, -, -, h5, h6, -, -⟩ := h
  unfold Config.getMaxPayloadSize
  dsimp only
  rw [Int.emod_eq_of_lt (by push_cast; omega) (by push_cast; omega)]
  split <;> (push_cast; omega)

/-! ## Packet codec (`packet.go`) -/

/-- PacketType DATA. -/
def PacketType_DATA : ℕ := 0x00

/-- PacketType HANDSHAKE. -/
def PacketType_HANDSHAKE : ℕ := 0x01

/-- PacketType KEEPALIVE. -/
def PacketType_KEEPALIVE : ℕ := 0x02

/-- PacketType CONTROL. -/
def PacketType_CONTROL : ℕ := 0x03

/-- FakeQUICVersion. -/
def fakeQUICVersion : ℕ := 0x00000001

/-- MinPacketSize. -/
def minPacketSize : ℕ := 29

/-- FlagFormBit. -/
def flagFormBit : ℕ := 0x80

/-- FlagFixedBit. -/
def flagFixedBit : ℕ := 0x40

/-- FlagTypeMask. -/
def flagTypeMask : ℕ := 0x30

/-- FlagTypeShift. -/
def flagTypeShift : ℕ := 4

/-- FlagPaddingBit. -/
def flagPaddingBit : ℕ := 0x08

/-- Packet — in-memory packet record (`packet.go`).  The Go struct also
carries a `StreamID uint16` living inside the encrypted payload; it is
never serialized by `Marshal`/`Unmarshal` and is omitted here. -/
structure Packet where
  type : ℕ
  connectionID : List ℕ
  packetNumber : ℕ
  payload : List ℕ
  hasPadding : Bool
  deriving DecidableEq

/-- Packet.EncodeFlags (`packet.go`). -/
def Packet.encodeFlags (p : Packet) : ℕ :=
  let flags := 0
  let flags := flags ||| flagFormBit
  let flags := flags ||| flagFixedBit
  let flags := flags ||| ((p.type &&& 0x03) <<< flagTypeShift)
  let flags := if p.hasPadding then flags ||| flagPaddingBit else flags
  flags

/-- Error kinds of the packet codec; `oob` is the out-of-bounds branch
of Go slice indexing, which never surfaces as a Go error value. -/
inductive PacketErr where
  | cidMismatch
  | tooShort
  | badFlags
  | badVersion
  | truncatedLen
  | truncatedPayload
  | oob
  deriving DecidableEq

deriving instance DecidableEq for Except

/-- DecodeFlags (`packet.go`). -/
def decodeFlags (flags : ℕ) : Except PacketErr (ℕ × Bool) :=
  if flags &&& flagFormBit = 0 then .error .badFlags
  else if flags &&& flagFixedBit = 0 then .error .badFlags
  else .ok ((flags &&& flagTypeMask) >>> flagTypeShift,
    decide (flags &&& flagPaddingBit ≠ 0))

/-- IsQUICLike (`packet.go`). -/
def isQUICLike (firstByte : ℕ) : Bool :=
  firstByte &&& (flagFormBit ||| flagFixedBit) = (flagFormBit ||| flagFixedBit)

/-- Padding size chosen by Packet.Marshal (`packet.go`): `intnR` models
the raw draw behind `mrand.Intn(maxPad-minPad)` — the Go call returns a
value in `[0, n)`, modelled as `intnR % n`. -/
def marshalPadSize (p : Packet) (config : Config) (intnR : ℕ) : ℕ :=
  if p.hasPadding && config.enablePadding then
    (if config.paddingMinSize < config.paddingMaxSize then
      config.paddingMinSize +
        intnR % (config.paddingMaxSize - config.paddingMinSize)
     else config.paddingMinSize)
  else 0

/-- Packet.Marshal (`packet.go`).  `randByte` models the `crypto/rand`
padding bytes.  The Go code writes into a pre-sized buffer at increasing
offsets, which equals the concatenation below; the `uint16` length
fields truncate via `beBytes 2`. -/
def Packet.marshal (p : Packet) (config : Config) (intnR : ℕ)
    (randByte : ℕ → ℕ) : Except PacketErr (List ℕ) :=
  if p.connectionID.length ≠ config.connectionIdLength then
    .error .cidMismatch
  else
    let paddingSize := marshalPadSize p config intnR
    .ok ([p.encodeFlags] ++ beBytes 4 fakeQUICVersion ++ p.connectionID ++
      beBytes 4 p.packetNumber ++ beBytes 2 p.payload.length ++ p.payload ++
      (if p.hasPadding && decide (0 < paddingSize) then
        (List.range paddingSize).map randByte ++ beBytes 2 paddingSize
       else []))

/-- Unmarshal (`packet.go`).  Every slice read goes through
`readBytes`/`readBE`, whose `none` branch maps to `PacketErr.oob`. -/
def unmarshal (data : List ℕ) (connIDLen : ℕ) : Except PacketErr Packet :=
  if data.length < 1 + 4 + connIDLen + 4 + 2 then .error .tooShort
  else
    match readBE data 0 1 with
    | none => .error .oob
    | some flags =>
      match decodeFlags flags with
      | .error e => .error e
      | .ok (pktType, hasPadding) =>
        match readBE data 1 4 with
        | none => .error .oob
        | some version =>
          if version ≠ fakeQUICVersion then .error .badVersion
          else
            match readBytes data 5 connIDLen with
            | none => .error .oob
            | some cid =>
              match readBE data (5 + connIDLen) 4 with
              | none => .error .oob
              | some pktNum =>
                if data.length < 9 + connIDLen + 2 then .error .truncatedLen
                else
                  match readBE data (9 + connIDLen) 2 with
                  | none => .error .oob
                  | some payloadLen =>
                    if data.length < 11 + connIDLen + payloadLen then
                      .error .truncatedPayload
                    else
                      match readBytes data (11 + connIDLen) payloadLen with
                      | none => .error .oob
                      | some payload =>
                        .ok ⟨pktType, cid, pktNum, payload, hasPadding⟩

/-! ## Codec lemmas -/

theorem readBytes_of_append (pre seg post : List ℕ) (off k : ℕ)
    (hoff : pre.length = off) (hk : seg.length = k) :
    readBytes (pre ++ seg ++ post) off k = some seg := by
  subst hoff hk
  unfold readBytes
  rw [if_pos (by simp only [List.length_append]; omega)]
  rw [List.append_assoc, List.drop_left, List.take_left]

theorem decodeFlags_encodeFlags (p : Packet) (hty : p.type < 4) :
    decodeFlags p.encodeFlags = .ok (p.type, p.hasPadding) := by
  obtain ⟨ty, cid, pn, pl, hp⟩ := p
  simp only [Packet.encodeFlags] at hty ⊢
  cases hp <;> interval_cases ty <;> rfl

/-- The explicit buffer `Packet.marshal` produces when the connection-ID
length matches. -/
theorem marshal_eq (p : Packet) (config : Config) (intnR : ℕ)
    (randByte : ℕ → ℕ) (hcid : p.connectionID.length = config.connectionIdLength) :
    p.marshal config intnR randByte = .ok
      ([p.encodeFlags] ++ beBytes 4 fakeQUICVersion ++ p.connectionID ++
        beBytes 4 p.packetNumber ++ beBytes 2 p.payload.length ++ p.payload ++
        (if p.hasPadding && decide (0 < marshalPadSize p config intnR) then
          (List.range (marshalPadSize p config intnR)).map randByte ++
            beBytes 2 (marshalPadSize p config intnR)
         else [])) := by
  unfold Packet.marshal marshalPadSize
  rw [if_neg (by omega)]

/-- Decoding an encoded buffer (the shape `Packet.marshal` emits, with
an arbitrary trailing block standing for the padding) recovers the
packet; the padding block is never inspected. -/
theorem unmarshal_encoded_buffer (p : Packet) (L : ℕ) (padB : List ℕ)
    (hty : p.type < 4) (hcid : p.connectionID.length = L)
    (hpn : p.packetNumber < 2 ^ 32) (hple : p.payload.length < 65536) :
    unmarshal ([p.encodeFlags] ++ beBytes 4 fakeQUICVersion ++
        p.connectionID ++ beBytes 4 p.packetNumber ++
        beBytes 2 p.payload.length ++ p.payload ++ padB) L =
      .ok ⟨p.type, p.connectionID, p.packetNumber, p.payload, p.hasPadding⟩ := by
  classical
  set enc := [p.encodeFlags] ++ beBytes 4 fakeQUICVersion ++
    p.connectionID ++ beBytes 4 p.packetNumber ++
    beBytes 2 p.payload.length ++ p.payload ++ padB with henc
  have hlenc : enc.length = 11 + L + p.payload.length + padB.length := by
    simp [henc, beBytes_length, hcid]
    omega
  have hr0 : readBE enc 0 1 = some p.encodeFlags := by
    have he : enc = [] ++ [p.encodeFlags] ++
        (beBytes 4 fakeQUICVersion ++ p.connectionID ++
          beBytes 4 p.packetNumber ++ beBytes 2 p.payload.length ++
          p.payload ++ padB) := by
      simp [henc, List.append_assoc]
    rw [readBE, he, readBytes_of_append _ _ _ 0 1 (by simp) (by simp)]
    simp [beVal]
  have hr1 : readBE enc 1 4 = some fakeQUICVersion := by
    have he : enc = [p.encodeFlags] ++ beBytes 4 fakeQUICVersion ++
        (p.connectionID ++ beBytes 4 p.packetNumber ++
          beBytes 2 p.payload.length ++ p.payload ++ padB) := by
      simp [henc, List.append_assoc]
    rw [readBE, he, readBytes_of_append _ _ _ 1 4 (by simp)
      (beBytes_length 4 _)]
    simp [beVal_beBytes, fakeQUICVersion]
  have hr2 : readBytes enc 5 L = some p.connectionID := by
    have he : enc = ([p.encodeFlags] ++ beBytes 4 fakeQUICVersion) ++
        p.connectionID ++ (beBytes 4 p.packetNumber ++
          beBytes 2 p.payload.length ++ p.payload ++ padB) := by
      simp [henc, List.append_assoc]
    rw [he, readBytes_of_append _ _ _ 5 L (by simp [beBytes_length]) hcid]
  have hpow : (256 : ℕ) ^ 4 = 2 ^ 32 := by norm_num
  have hr3 : readBE enc (5 + L) 4 = some p.packetNumber := by
    have he : enc = ([p.encodeFlags] ++ beBytes 4 fakeQUICVersion ++
        p.connectionID) ++ beBytes 4 p.packetNumber ++
        (beBytes 2 p.payload.length ++ p.payload ++ padB) := by
      simp [henc, List.append_assoc]
    rw [readBE, he, readBytes_of_append _ _ _ (5 + L) 4
      (by simp [beBytes_length, hcid]; omega) (beBytes_length 4 _)]
    have : beVal (beBytes 4 p.packetNumber) = p.packetNumber := by
      rw [beVal_beBytes, hpow]
      exact Nat.mod_eq_of_lt hpn
    simp [this]
  have hr4 : readBE enc (9 + L) 2 = some p.payload.length := by
    have he : enc = ([p.encodeFlags] ++ beBytes 4 fakeQUICVersion ++
        p.connectionID ++ beBytes 4 p.packetNumber) ++
        beBytes 2 p.payload.length ++ (p.payload ++ padB) := by
      simp [henc, List.append_assoc]
    rw [readBE, he, readBytes_of_append _ _ _ (9 + L) 2
      (by simp [beBytes_length, hcid]; omega) (beBytes_length 2 _)]
    have : beVal (beBytes 2 p.payload.length) = p.payload.length := by
      rw [beVal_beBytes]
      exact Nat.mod_eq_of_lt (by norm_num; omega)
    simp [this]
  have hr5 : readBytes enc (11 + L) p.payload.length = some p.payload := by
    have he : enc = ([p.encodeFlags] ++ beBytes 4 fakeQUICVersion ++
        p.connectionID ++ beBytes 4 p.packetNumber ++
        beBytes 2 p.payload.length) ++ p.payload ++ padB := by
      simp [henc, List.append_assoc]
    rw [he, readBytes_of_append _ _ _ (11 + L) p.payload.length
      (by simp [beBytes_length, hcid]; omega) rfl]
  unfold unmarshal
  have hl1 : ¬(enc.length < 9 + L + 2) := by omega
  have hl2 : ¬(enc.length < 11 + L + p.payload.length) := by omega
  rw [if_neg (show ¬(enc.length < 1 + 4 + L + 4 + 2) by omega)]
  simp only [hr0, hr1, hr2, hr3, hr4, hr5, decodeFlags_encodeFlags p hty,
    if_neg hl1, if_neg hl2]
  simp

/-- Round trip of the packet codec: for a validated configuration, a
matching connection-ID length, a payload that fits `max_payload` (plus
AEAD tag), one of the four packet kinds and a 32-bit packet number,
`Unmarshal` recovers the kind, connection ID, packet number and payload
that `Marshal` serialized, whatever padding randomness was drawn. -/
theorem marshal_unmarshal (config : Config) (p : Packet) (intnR : ℕ)
    (randByte : ℕ → ℕ)
    (hv : config.Valid)
    (hcid : p.connectionID.length = config.connectionIdLength)
    (hpl : p.payload.length ≤ config.getMaxPayloadSize + 16)
    (hty : p.type < 4)
    (hpn : p.packetNumber < 2 ^ 32) :
    ∃ out, p.marshal config intnR randByte = .ok out ∧
      unmarshal out config.connectionIdLength =
        .ok ⟨p.type, p.connectionID, p.packetNumber, p.payload, p.hasPadding⟩ := by
  have hmps := getMaxPayloadSize_of_valid config hv
  obtain ⟨hm1, hm2, -, -, hc1, hc2, -, -⟩ := hv
  have hple : p.payload.length < 65536 := by
    rw [hmps] at hpl
    split at hpl <;> omega
  exact ⟨_, marshal_eq p config intnR randByte hcid,
    unmarshal_encoded_buffer p config.connectionIdLength _ hty hcid hpn hple⟩

/-- Length of an encoded packet: header, payload, and — only when the
padding block is emitted — the pad bytes plus the two-byte trailer. -/
theorem marshal_length (p : Packet) (config : Config) (intnR : ℕ)
    (randByte : ℕ → ℕ) (out : List ℕ)
    (h : p.marshal config intnR randByte = .ok out) :
    out.length = 11 + config.connectionIdLength + p.payload.length +
      (if p.hasPadding && decide (0 < marshalPadSize p config intnR) then
        marshalPadSize p config intnR + 2
       else 0) := by
  unfold Packet.marshal at h
  split at h
  · cases h
  · next hcid =>
    rw [not_not] at hcid
    simp only [Except.ok.injEq] at h
    subst h
    by_cases hc : (p.hasPadding && decide (0 < marshalPadSize p config intnR))
      = true
    · simp [hc, beBytes_length, hcid]
      omega
    · simp only [Bool.not_eq_true] at hc
      simp [hc, beBytes_length, hcid]
      omega

/-- The padding size Marshal draws never exceeds `PaddingMaxSize` (for a
configuration where `padding_min ≤ padding_max`). -/
theorem marshalPadSize_le (p : Packet) (config : Config) (intnR : ℕ)
    (hpad : config.paddingMinSize ≤ config.paddingMaxSize) :
    marshalPadSize p config intnR ≤ config.paddingMaxSize := by
  unfold marshalPadSize
  split_ifs with h1 h2
  · have := Nat.mod_lt intnR
      (show 0 < config.paddingMaxSize - config.paddingMinSize by omega)
    omega
  · omega
  · omega

/-- Padding disabled in the configuration forces a zero padding size. -/
theorem marshalPadSize_of_not_enabled (p : Packet) (config : Config)
    (intnR : ℕ) (h : config.enablePadding = false) :
    marshalPadSize p config intnR = 0 := by
  unfold marshalPadSize
  simp [h]

/-- Bound on an encoded datagram built from a payload that fits
`GetMaxPayloadSize` plus the 16-byte AEAD tag: at most `mtu` when
padding is disabled, and at most `mtu + padding_max` in general. -/
theorem marshal_length_le (p : Packet) (config : Config) (intnR : ℕ)
    (randByte : ℕ → ℕ) (out : List ℕ)
    (hv : config.Valid)
    (h : p.marshal config intnR randByte = .ok out)
    (hpl : p.payload.length ≤ config.getMaxPayloadSize + 16) :
    out.length ≤ config.mtu + config.paddingMaxSize ∧
      (config.enablePadding = false → out.length ≤ config.mtu) := by
  have hlen := marshal_length p config intnR randByte out h
  have hmps := getMaxPayloadSize_of_valid config hv
  obtain ⟨hm1, hm2, -, -, hc1, hc2, hp1, -⟩ := hv
  have hpadle := marshalPadSize_le p config intnR hp1
  constructor
  · rw [hlen]
    by_cases he : config.enablePadding = true
    · rw [hmps, he, if_pos rfl] at hpl
      split
      · omega
      · omega
    · simp only [Bool.not_eq_true] at he
      have h0 := marshalPadSize_of_not_enabled p config intnR he
      rw [hmps, he] at hpl
      simp at hpl
      rw [h0]
      simp
      omega
  · intro he
    have h0 := marshalPadSize_of_not_enabled p config intnR he
    rw [hmps, he] at hpl
    simp at hpl
    rw [hlen, h0]
    simp
    omega

/-! ## Cryptography (`crypto.go`)

External primitives (`curve25519.X25519`, `hkdf`, `sha256.Sum256`,
`chacha20poly1305`) live in `golang.org/x/crypto`, outside this
repository; they enter the embedding as explicit function parameters,
collected in `Env` together with the random draws and clock reads. -/

/-- UTF-8 bytes of an ASCII string literal. -/
def strBytes (s : String) : List ℕ :=
  s.toList.map Char.toNat

/-- HKDFInfoClient (`crypto.go`). -/
def hkdfInfoClient : List ℕ := strBytes "gametunnel client-to-server"

/-- HKDFInfoServer (`crypto.go`). -/
def hkdfInfoServer : List ℕ := strBytes "gametunnel server-to-client"

/-- HKDFSalt (`crypto.go`). -/
def hkdfSaltBytes : List ℕ := strBytes "GameTunnel-v1-salt"

/-- KeyPair — X25519 key pair (`crypto.go`). -/
structure KeyPair where
  privateKey : List ℕ
  publicKey : List ℕ
  deriving DecidableEq

/-- SessionKeys — one 32-byte ChaCha20-Poly1305 key per direction
(`crypto.go`); the cached cipher objects are function values of the same
keys and are not modelled separately. -/
structure SessionKeys where
  sendKey : List ℕ
  recvKey : List ℕ
  deriving DecidableEq

/-- Error kinds of the cryptographic layer. -/
inductive CryptoErr where
  | lowOrderPoint
  | authFailed
  | handshakeTooShort
  deriving DecidableEq

/-- Environment of external effects: clock reads, random draws and the
`golang.org/x/crypto` primitives used by the repository. -/
structure Env where
  now : ℕ
  nowUnix : ℕ
  x25519 : List ℕ → List ℕ → List ℕ
  hkdf : List ℕ → List ℕ → List ℕ → List ℕ
  sha256 : List ℕ → List ℕ
  aeadSeal : List ℕ → List ℕ → List ℕ → List ℕ → List ℕ
  aeadOpen : List ℕ → List ℕ → List ℕ → List ℕ → Option (List ℕ)
  randKey : ℕ → ℕ
  rand32 : ℕ → ℕ
  randCid : ℕ → ℕ
  intnR : ℕ
  randByte : ℕ → ℕ

/-- The X25519 base point. -/
def basepoint : List ℕ := 9 :: List.replicate 31 0

/-- GenerateKeyPair (`crypto.go`): 32 random bytes, the standard X25519
clamp, public key by scalar multiplication with the base point. -/
def generateKeyPair (env : Env) : KeyPair :=
  let raw := (List.range 32).map env.randKey
  let k1 := raw.set 0 (raw.headI &&& 248)
  let k2 := k1.set 31 ((k1.getD 31 0 &&& 127) ||| 64)
  { privateKey := k2, publicKey := env.x25519 k2 basepoint }

/-- ComputeSharedSecret (`crypto.go`): X25519 followed by the all-zero
(low-order point) rejection. -/
def computeSharedSecret (env : Env) (myPrivate theirPublic : List ℕ) :
    Except CryptoErr (List ℕ) :=
  let result := env.x25519 myPrivate theirPublic
  if result.all (fun b => b = 0) then .error .lowOrderPoint
  else .ok result

/-- DeriveSessionKeys (`crypto.go`): HKDF-SHA256 with the static salt, a
SHA-256 PSK mixin when the key is non-empty, and direction-dependent key
assignment. -/
def deriveSessionKeys (env : Env) (sharedSecret : List ℕ) (psk : String)
    (isClient : Bool) : SessionKeys :=
  let ikm := sharedSecret
  let salt := hkdfSaltBytes
  let salt := if psk ≠ "" then salt ++ env.sha256 (strBytes psk) else salt
  let clientToServerKey := env.hkdf ikm salt hkdfInfoClient
  let serverToClientKey := env.hkdf ikm salt hkdfInfoServer
  if isClient then
    { sendKey := clientToServerKey, recvKey := serverToClientKey }
  else
    { sendKey := serverToClientKey, recvKey := clientToServerKey }

/-- buildNonce (`crypto.go`): eight zero bytes then the 32-bit
big-endian packet number. -/
def buildNonce (packetNumber : ℕ) : List ℕ :=
  List.replicate 8 0 ++ beBytes 4 packetNumber

/-- SessionKeys.Encrypt (`crypto.go`): AEAD seal under the send key with
the packet-number nonce; the primitive appends the 16-byte tag. -/
def SessionKeys.encrypt (sk : SessionKeys) (env : Env) (payload : List ℕ)
    (packetNumber : ℕ) (additionalData : List ℕ) : List ℕ :=
  env.aeadSeal sk.sendKey (buildNonce packetNumber) payload additionalData

/-- SessionKeys.Decrypt (`crypto.go`): AEAD open under the recv key; any
failure collapses to the single authentication-failure kind. -/
def SessionKeys.decrypt (sk : SessionKeys) (env : Env) (ciphertext : List ℕ)
    (packetNumber : ℕ) (additionalData : List ℕ) : Except CryptoErr (List ℕ) :=
  match env.aeadOpen sk.recvKey (buildNonce packetNumber) ciphertext additionalData
    with
  | none => .error .authFailed
  | some plaintext => .ok plaintext

/-- HandshakePayload (`crypto.go`): 32-byte public key, 8-byte
big-endian Unix timestamp, 32 random bytes. -/
structure HandshakePayload where
  publicKey : List ℕ
  timestamp : ℕ
  random : List ℕ
  deriving DecidableEq

/-- HandshakePayload.Marshal (`crypto.go`). -/
def HandshakePayload.marshal (h : HandshakePayload) : List ℕ :=
  h.publicKey ++ beBytes 8 h.timestamp ++ h.random

/-- UnmarshalHandshake (`crypto.go`). -/
def unmarshalHandshake (data : List ℕ) : Except CryptoErr HandshakePayload :=
  if data.length < 32 + 8 + 32 then .error .handshakeTooShort
  else .ok ⟨data.take 32, beVal ((data.drop 32).take 8),
    (data.drop 40).take 32⟩

/-- NewHandshakePayload (`crypto.go`); the 32 random bytes come from the
environment. -/
def newHandshakePayload (env : Env) (publicKey : List ℕ) (timestamp : ℕ) :
    HandshakePayload :=
  ⟨publicKey, timestamp, (List.range 32).map env.rand32⟩

/-! ## Packet constructors (`packet.go`) -/

/-- NewDataPacket (`packet.go`). -/
def newDataPacket (connID : List ℕ) (pktNum : ℕ) (payload : List ℕ)
    (enablePadding : Bool) : Packet :=
  ⟨PacketType_DATA, connID, pktNum, payload, enablePadding⟩

/-- NewHandshakePacket (`packet.go`): handshakes always carry padding. -/
def newHandshakePacket (connID : List ℕ) (pktNum : ℕ) (payload : List ℕ) :
    Packet :=
  ⟨PacketType_HANDSHAKE, connID, pktNum, payload, true⟩

/-- NewKeepAlivePacket (`packet.go`): no payload, but padded. -/
def newKeepAlivePacket (connID : List ℕ) (pktNum : ℕ) : Packet :=
  ⟨PacketType_KEEPALIVE, connID, pktNum, [], true⟩

/-- NewControlPacket (`packet.go`). -/
def newControlPacket (connID : List ℕ) (pktNum : ℕ) (payload : List ℕ) :
    Packet :=
  ⟨PacketType_CONTROL, connID, pktNum, payload, false⟩

/-- GenerateConnectionID (`packet.go`). -/
def generateConnectionID (env : Env) (length : ℕ) :
    Except CryptoErr (List ℕ) :=
  if length < 4 ∨ 20 < length then .error .handshakeTooShort
  else .ok ((List.range length).map env.randCid)

/-! ## Client endpoint (`dialer.go`) -/

/-- atomic.AddUint32 on the per-session packet-number counter: the Go
built-in adds with 32-bit wraparound and returns the new value; there is
no overflow check anywhere in the repository. -/
def nextSendPacketNum (n : ℕ) : ℕ :=
  (n + 1) % 2 ^ 32

/-- ClientSession (`dialer.go`); the inbound channel and server address
are connectivity state with no bearing on the embedded claims. -/
structure ClientSession where
  connectionID : List ℕ
  keys : SessionKeys
  sendPacketNum : ℕ
  recvPacketNum : ℕ
  deriving DecidableEq

/-- Errors surfaced by the client handshake. -/
inductive HandshakeErr where
  | cidGeneration
  | marshalClientHello (e : PacketErr)
  | unmarshalServerHello (e : PacketErr)
  | notHandshakePacket
  | badServerHandshake
  | keyExchangeFailed
  deriving DecidableEq

/-- performHandshake (`dialer.go`): builds and "sends" the ClientHello
(packet number 0), parses the given ServerHello datagram, derives the
session keys with `isClient = true` and returns the ClientHello packet,
its encoding, and the fresh session whose send counter starts at 1
("0 used for the ClientHello").  The network send/receive and the
handshake deadline are outside the embedding: the received datagram is a
parameter. -/
def performHandshake (env : Env) (config : Config)
    (serverHelloData : List ℕ) :
    Except HandshakeErr (Packet × List ℕ × ClientSession) :=
  let keyPair := generateKeyPair env
  match generateConnectionID env config.connectionIdLength with
  | .error _ => .error .cidGeneration
  | .ok connID =>
    let handshakePayload := newHandshakePayload env keyPair.publicKey
      env.nowUnix
    let clientHello := newHandshakePacket connID 0 handshakePayload.marshal
    match clientHello.marshal config env.intnR env.randByte with
    | .error e => .error (.marshalClientHello e)
    | .ok clientHelloData =>
      match unmarshal serverHelloData config.connectionIdLength with
      | .error e => .error (.unmarshalServerHello e)
      | .ok serverHelloPkt =>
        if serverHelloPkt.type ≠ PacketType_HANDSHAKE then
          .error .notHandshakePacket
        else
          match unmarshalHandshake serverHelloPkt.payload with
          | .error _ => .error .badServerHandshake
          | .ok serverHandshake =>
            match computeSharedSecret env keyPair.privateKey
              serverHandshake.publicKey with
            | .error _ => .error .keyExchangeFailed
            | .ok sharedSecret =>
              let sessionKeys := deriveSessionKeys env sharedSecret config.key
                true
              .ok (clientHello, clientHelloData,
                { connectionID := connID, keys := sessionKeys,
                  sendPacketNum := 1, recvPacketNum := 0 })

/-- The additional-data header both write paths build by hand: flags of
a Data packet, the fake QUIC version, then the connection ID. -/
def dataPacketAD (config : Config) (connID : List ℕ) : List ℕ :=
  [(newDataPacket connID 0 [] config.enablePadding).encodeFlags] ++
    beBytes 4 fakeQUICVersion ++ connID

/-- Structural worker for `chunksOf`: the fuel only serves termination
and never runs out when it starts at the buffer length (each step with
`m ≠ 0` strictly shortens the buffer). -/
def chunksOfFuel : ℕ → ℕ → List ℕ → List (List ℕ)
  | _, _, [] => []
  | 0, _, _ :: _ => []
  | fuel + 1, m, a :: as =>
    if m = 0 then []
    else (a :: as).take m :: chunksOfFuel fuel m ((a :: as).drop m)

/-- The chunking of the application buffer into windows of `m` bytes
performed by the write loops.  (`m = 0` cannot happen on a validated
configuration; it yields no chunks so the recursion terminates.) -/
def chunksOf (m : ℕ) (l : List ℕ) : List (List ℕ) :=
  chunksOfFuel l.length m l

/-- One iteration of GameTunnelClientConn.Write (`dialer.go`) per chunk:
draw the next packet number, seal the chunk with the header as AAD,
marshal, send.  A marshal failure aborts the loop (the counter bump
persists, as in the Go code); the network write itself cannot fail in
the model. -/
def clientWriteChunks (env : Env) (config : Config) :
    ClientSession → List (List ℕ) → ClientSession × List (List ℕ)
  | s, [] => (s, [])
  | s, chunk :: rest =>
    let pktNum := nextSendPacketNum s.sendPacketNum
    let s1 : ClientSession := { s with sendPacketNum := pktNum }
    let ad := dataPacketAD config s.connectionID
    let ciphertext := s.keys.encrypt env chunk pktNum ad
    let pkt := newDataPacket s.connectionID pktNum ciphertext
      config.enablePadding
    match pkt.marshal config env.intnR env.randByte with
    | .error _ => (s1, [])
    | .ok d =>
      let (s2, ds) := clientWriteChunks env config s1 rest
      (s2, d :: ds)

/-- GameTunnelClientConn.Write (`dialer.go`): chunk the buffer at
`GetMaxPayloadSize` and emit one encrypted datagram per chunk. -/
def clientWrite (env : Env) (config : Config) (s : ClientSession)
    (b : List ℕ) : ClientSession × List (List ℕ) :=
  clientWriteChunks env config s (chunksOf config.getMaxPayloadSize b)

/-- GameTunnelClientConn.maybeKeepAlive (`dialer.go`): called from the
receive loop on every 1-second read timeout.  Note it consults only
`KeepAliveInterval = 0`; no last-send time exists in the client state,
so elapsed time since the last send plays no role. -/
def maybeKeepAlive (env : Env) (config : Config) (s : ClientSession) :
    ClientSession × Option (List ℕ) :=
  if config.keepAliveInterval = 0 then (s, none)
  else
    let pktNum := nextSendPacketNum s.sendPacketNum
    let s1 : ClientSession := { s with sendPacketNum := pktNum }
    let keepAlive := newKeepAlivePacket s.connectionID pktNum
    match keepAlive.marshal config env.intnR env.randByte with
    | .error _ => (s1, none)
    | .ok d => (s1, some d)

/-! ## Session hub (`hub.go`)

The Go Hub keys its map by the hex string of the connection ID; hex
encoding of byte strings is injective, so the table is keyed by the
connection-ID bytes directly.  Per-session locks, the inbound channel
and the `closed` flag are concurrency machinery with no effect on the
routing logic embedded here; `Session` keeps the routed state. -/

/-- SessionState HANDSHAKE. -/
def SessionState_HANDSHAKE : ℕ := 0

/-- SessionState ACTIVE. -/
def SessionState_ACTIVE : ℕ := 1

/-- SessionState CLOSING. -/
def SessionState_CLOSING : ℕ := 2

/-- SessionState CLOSED. -/
def SessionState_CLOSED : ℕ := 3

/-- Session (`hub.go`); the remote UDP endpoint is an opaque value. -/
structure Session where
  id : List ℕ
  state : ℕ
  remoteAddr : ℕ
  keys : SessionKeys
  localKeyPair : Option KeyPair
  sendPacketNum : ℕ
  recvPacketNum : ℕ
  createdAt : ℕ
  lastActiveAt : ℕ
  bytesSent : ℕ
  bytesRecv : ℕ
  packetsSent : ℕ
  packetsRecv : ℕ
  deriving DecidableEq

/-- Hub (`hub.go`): the connection-ID table and the two counters; the
socket and callback are I/O handles outside the embedding. -/
structure HubState where
  sessions : List (List ℕ × Session)
  totalSessions : ℕ
  activeSessions : ℤ
  deriving DecidableEq

/-- Map lookup in the Hub's session table. -/
def findSession (sessions : List (List ℕ × Session)) (connID : List ℕ) :
    Option Session :=
  (sessions.find? (fun kv => decide (kv.1 = connID))).map (fun kv => kv.2)

/-- Map assignment: the Go sessions map holds pointers, so mutating a
routed session is visible in the table; modelled by rewriting the
entry. -/
def updateSession (h : HubState) (connID : List ℕ) (s : Session) :
    HubState :=
  { h with sessions := (h.sessions.map
      (fun kv => if kv.1 = connID then (kv.1, s) else kv)) }

/-- Hub.RemoveSession (`hub.go`). -/
def removeSession (h : HubState) (connID : List ℕ) : HubState :=
  if (findSession h.sessions connID).isSome then
    { h with
      sessions := h.sessions.filter (fun kv => !decide (kv.1 = connID)),
      activeSessions := h.activeSessions - 1 }
  else h

/-- The Hub's idle-session timeout in nanoseconds, as set up by NewHub
(`hub.go`): `time.Duration(config.KeepAliveInterval*3) * time.Second`,
overridden to 5 minutes when keep-alive is disabled.  The product
`KeepAliveInterval*3` is computed in `uint32`, so it wraps modulo
`2^32` before the conversion to `time.Duration`; the subsequent
nanosecond scaling happens in the 64-bit `Duration` and cannot
overflow for uint32 inputs. -/
def hubSessionTimeout (config : Config) : ℕ :=
  if config.keepAliveInterval = 0 then 300 * 1000000000
  else config.keepAliveInterval * 3 % 2 ^ 32 * 1000000000

/-- One tick of Hub.cleanupLoop (`hub.go`): every session whose
inactivity (`now − lastActive`, clamped like Go's signed duration
comparison) exceeds the timeout is removed; the rest stay. -/
def cleanupTick (now timeout : ℕ) (sessions : List (List ℕ × Session)) :
    List (List ℕ × Session) :=
  sessions.filter (fun kv => !decide (timeout < now - kv.2.lastActiveAt))

/-- Routing errors (`hub.go`); Go reports them as `fmt.Errorf` values,
distinguished here by kind. -/
inductive RouteErr where
  | tooShort
  | notQuicLike
  | shortForCid
  | badFlags
  | unknownCid
  | unknownType
  | unmarshalFailed (e : PacketErr)
  | handshakePayloadBad
  | keyExchangeFailed
  | sessionNotActive
  | decryptFailed
  | marshalFailed (e : PacketErr)
  deriving DecidableEq

/-- Successful outcome of Hub.RoutePacket: the routed session, the
decrypted plaintext for Data packets, and the datagrams written back to
the socket. -/
abbrev RouteOk := Session × Option (List ℕ) × List (List ℕ)

/-- Hub.sendServerHello (`hub.go`): bump the session counter (the bump
persists even if the marshal then fails, as with the Go atomic), build a
Handshake packet carrying the key pair's public key, marshal it. -/
def sendServerHello (env : Env) (config : Config) (session : Session)
    (keyPair : KeyPair) : Session × Except PacketErr (List ℕ) :=
  let handshakePayload := newHandshakePayload env keyPair.publicKey
    env.nowUnix
  let pktNum := nextSendPacketNum session.sendPacketNum
  let session' := { session with sendPacketNum := pktNum }
  let pkt := newHandshakePacket session.id pktNum handshakePayload.marshal
  (session', pkt.marshal config env.intnR env.randByte)

/-- Hub.handleNewHandshake (`hub.go`): parse the hello, make a server
key pair, run ECDH, derive keys with `isClient = false`, register the
Active session, then send the ServerHello (whose counter bump the
registered session keeps even on a marshal error, as in Go). -/
def handleNewHandshake (env : Env) (config : Config) (h : HubState)
    (data connID : List ℕ) (remoteAddr : ℕ) :
    Except RouteErr RouteOk × HubState :=
  match unmarshal data config.connectionIdLength with
  | .error e => (.error (.unmarshalFailed e), h)
  | .ok pkt =>
    match unmarshalHandshake pkt.payload with
    | .error _ => (.error .handshakePayloadBad, h)
    | .ok clientHandshake =>
      let serverKeyPair := generateKeyPair env
      match computeSharedSecret env serverKeyPair.privateKey
        clientHandshake.publicKey with
      | .error _ => (.error .keyExchangeFailed, h)
      | .ok sharedSecret =>
        let sessionKeys := deriveSessionKeys env sharedSecret config.key
          false
        let session : Session :=
          { id := connID, state := SessionState_ACTIVE,
            remoteAddr := remoteAddr, keys := sessionKeys,
            localKeyPair := some serverKeyPair,
            sendPacketNum := 0, recvPacketNum := 0,
            createdAt := env.now, lastActiveAt := env.now,
            bytesSent := 0, bytesRecv := 0,
            packetsSent := 0, packetsRecv := 0 }
        let h1 : HubState :=
          { h with
            sessions := ((connID, session) :: h.sessions),
            activeSessions := (h.activeSessions + 1),
            totalSessions := (h.totalSessions + 1) }
        let (session', res) := sendServerHello env config session
          serverKeyPair
        let h2 := updateSession h1 connID session'
        match res with
        | .error e => (.error (.marshalFailed e), h2)
        | .ok d => (.ok (session', none, [d]), h2)

/-- Hub.handleExistingHandshake (`hub.go`): idempotent ServerHello
retransmit from the retained key pair. -/
def handleExistingHandshake (env : Env) (config : Config) (h : HubState)
    (session : Session) : Except RouteErr RouteOk × HubState :=
  match session.localKeyPair with
  | none => (.ok (session, none, []), h)
  | some keyPair =>
    let (session', res) := sendServerHello env config session keyPair
    let h1 := updateSession h session.id session'
    match res with
    | .error e => (.error (.marshalFailed e), h1)
    | .ok d => (.ok (session', none, [d]), h1)

/-- Hub.handleDataPacket (`hub.go`). -/
def handleDataPacket (env : Env) (config : Config) (h : HubState)
    (session : Session) (data : List ℕ) : Except RouteErr RouteOk × HubState :=
  if session.state ≠ SessionState_ACTIVE then (.error .sessionNotActive, h)
  else
    match unmarshal data config.connectionIdLength with
    | .error e => (.error (.unmarshalFailed e), h)
    | .ok pkt =>
      let adLen := 1 + 4 + config.connectionIdLength
      let additionalData := data.take adLen
      match session.keys.decrypt env pkt.payload pkt.packetNumber
        additionalData with
      | .error _ => (.error .decryptFailed, h)
      | .ok plaintext =>
        let session' :=
          { session with
            recvPacketNum := pkt.packetNumber,
            packetsRecv := session.packetsRecv + 1,
            bytesRecv := session.bytesRecv + plaintext.length }
        (.ok (session', some plaintext, []),
          updateSession h session.id session')

/-- Hub.handleKeepAlive (`hub.go`): bounce a KeepAlive back with the
next packet number. -/
def handleKeepAlive (env : Env) (config : Config) (h : HubState)
    (session : Session) : Except RouteErr RouteOk × HubState :=
  let pktNum := nextSendPacketNum session.sendPacketNum
  let session' := { session with sendPacketNum := pktNum }
  let h1 := updateSession h session.id session'
  let keepAlive := newKeepAlivePacket session.id pktNum
  match keepAlive.marshal config env.intnR env.randByte with
  | .error e => (.error (.marshalFailed e), h1)
  | .ok d => (.ok (session', none, [d]), h1)

/-- Hub.handleControlPacket (`hub.go`): `0x00` close, `0x01` ping (Pong
response, marshal errors swallowed), `0x02` pong, anything else
ignored. -/
def handleControlPacket (env : Env) (config : Config) (h : HubState)
    (session : Session) (data : List ℕ) : Except RouteErr RouteOk × HubState :=
  match unmarshal data config.connectionIdLength with
  | .error e => (.error (.unmarshalFailed e), h)
  | .ok pkt =>
    if pkt.payload.length = 0 then (.ok (session, none, []), h)
    else if pkt.payload.headI = 0x00 then
      (.ok (session, none, []), removeSession h session.id)
    else if pkt.payload.headI = 0x01 then
      let pktNum := nextSendPacketNum session.sendPacketNum
      let session' := { session with sendPacketNum := pktNum }
      let h1 := updateSession h session.id session'
      let pong := newControlPacket session.id pktNum [0x02]
      match pong.marshal config env.intnR env.randByte with
      | .error _ => (.ok (session', none, []), h1)
      | .ok d => (.ok (session', none, [d]), h1)
    else (.ok (session, none, []), h)

/-- Hub.RoutePacket (`hub.go`): the single dispatch entry point. -/
def routePacket (env : Env) (config : Config) (h : HubState)
    (data : List ℕ) (remoteAddr : ℕ) : Except RouteErr RouteOk × HubState :=
  if data.length < minPacketSize then (.error .tooShort, h)
  else if ¬ isQUICLike data.headI then (.error .notQuicLike, h)
  else
    let connIDLen := config.connectionIdLength
    if data.length < 1 + 4 + connIDLen then (.error .shortForCid, h)
    else
      let connID := (data.drop 5).take connIDLen
      match decodeFlags data.headI with
      | .error _ => (.error .badFlags, h)
      | .ok (pktType, _) =>
        match findSession h.sessions connID with
        | none =>
          if pktType = PacketType_HANDSHAKE then
            handleNewHandshake env config h data connID remoteAddr
          else (.error .unknownCid, h)
        | some session =>
          let session' :=
            { session with
              remoteAddr := remoteAddr,
              lastActiveAt := env.now }
          let h1 := updateSession h connID session'
          if pktType = PacketType_HANDSHAKE then
            handleExistingHandshake env config h1 session'
          else if pktType = PacketType_DATA then
            handleDataPacket env config h1 session' data
          else if pktType = PacketType_KEEPALIVE then
            handleKeepAlive env config h1 session'
          else if pktType = PacketType_CONTROL then
            handleControlPacket env config h1 session' data
          else (.error .unknownType, h1)

/-- Hub.SendToSession (`hub.go`): refuse on non-Active sessions, bump
the counter, seal with the hand-built header as AAD, marshal and send;
statistics update on success. -/
def hubSendToSession (env : Env) (config : Config) (h : HubState)
    (session : Session) (payload : List ℕ) :
    Except RouteErr (Session × List ℕ) × HubState :=
  if session.state ≠ SessionState_ACTIVE then (.error .sessionNotActive, h)
  else
    let pktNum := nextSendPacketNum session.sendPacketNum
    let s1 := { session with sendPacketNum := pktNum }
    let ad := dataPacketAD config session.id
    let ciphertext := session.keys.encrypt env payload pktNum ad
    let pkt := newDataPacket session.id pktNum ciphertext
      config.enablePadding
    match pkt.marshal config env.intnR env.randByte with
    | .error e => (.error (.marshalFailed e), updateSession h session.id s1)
    | .ok d =>
      let s2 := { s1 with
        packetsSent := s1.packetsSent + 1,
        bytesSent := s1.bytesSent + payload.length }
      (.ok (s2, d), updateSession h session.id s2)

/-! ## Priority scheduler (`priority.go`)

The three Go buffered channels are bounded FIFO queues; a non-blocking
channel send appends at the tail when the queue is below capacity, a
non-blocking receive pops the head.  Time is in nanoseconds;
`time.Since` of a later timestamp is negative in Go and the clamped ℕ
subtraction agrees with it on every `> timeout` comparison. -/

/-- PriorityLevel High. -/
def PriorityHigh : ℕ := 0

/-- PriorityLevel Medium. -/
def PriorityMedium : ℕ := 1

/-- PriorityLevel Low. -/
def PriorityLow : ℕ := 2

/-- HighQueueSize. -/
def highQueueSize : ℕ := 512

/-- MediumQueueSize. -/
def mediumQueueSize : ℕ := 256

/-- LowQueueSize. -/
def lowQueueSize : ℕ := 128

/-- HighPriorityMaxSize. -/
def highPriorityMaxSize : ℕ := 256

/-- MediumPriorityMaxSize. -/
def mediumPriorityMaxSize : ℕ := 1024

/-- The 500 ms starvation guard of NewPriorityQueue, in nanoseconds. -/
def starvationTimeoutNs : ℕ := 500 * 1000000

/-- PriorityPacket (`priority.go`); the owning-session pointer does not
participate in the queue discipline. -/
structure PriorityPacket where
  data : List ℕ
  priority : ℕ
  enqueuedAt : ℕ
  deriving DecidableEq

/-- PriorityQueue state (`priority.go`): the three bounded queues and
the statistics counters. -/
structure PQState where
  high : List PriorityPacket
  med : List PriorityPacket
  low : List PriorityPacket
  enqueuedHigh : ℕ
  enqueuedMedium : ℕ
  enqueuedLow : ℕ
  dropped : ℕ
  deriving DecidableEq

/-- The queue of a level (`pq.queues[level]`). -/
def queueOf (st : PQState) (level : ℕ) : List PriorityPacket :=
  if level = PriorityHigh then st.high
  else if level = PriorityMedium then st.med
  else st.low

/-- Capacity of a level's channel. -/
def queueCap (level : ℕ) : ℕ :=
  if level = PriorityHigh then highQueueSize
  else if level = PriorityMedium then mediumQueueSize
  else lowQueueSize

/-- Replace the queue of a level. -/
def setQueue (st : PQState) (level : ℕ) (q : List PriorityPacket) :
    PQState :=
  if level = PriorityHigh then { st with high := q }
  else if level = PriorityMedium then { st with med := q }
  else { st with low := q }

/-- classifyGaming (`priority.go`). -/
def classifyGaming (data : List ℕ) : ℕ :=
  if data.length ≤ highPriorityMaxSize then PriorityHigh
  else if data.length ≤ mediumPriorityMaxSize then PriorityMedium
  else PriorityLow

/-- classifyStreaming (`priority.go`). -/
def classifyStreaming (data : List ℕ) : ℕ :=
  if data.length ≤ highPriorityMaxSize then PriorityHigh
  else if data.length ≤ mediumPriorityMaxSize then PriorityHigh
  else PriorityMedium

/-- classify (`priority.go`): dispatch on the configured mode; every
other mode sends everything to Medium. -/
def classify (mode : ℕ) (data : List ℕ) : ℕ :=
  if mode = PriorityMode_GAMING then classifyGaming data
  else if mode = PriorityMode_STREAMING then classifyStreaming data
  else PriorityMedium

/-- updateEnqueueStats (`priority.go`). -/
def updateEnqueueStats (st : PQState) (level : ℕ) : PQState :=
  if level = PriorityHigh then { st with enqueuedHigh := st.enqueuedHigh + 1 }
  else if level = PriorityMedium then
    { st with enqueuedMedium := st.enqueuedMedium + 1 }
  else if level = PriorityLow then
    { st with enqueuedLow := st.enqueuedLow + 1 }
  else st

/-- tryBump (`priority.go`): evict the Low head (else the Medium head)
to make room for a High packet; every eviction and failed insertion is
one drop. -/
def tryBump (st : PQState) (highPkt : PriorityPacket) : PQState × Bool :=
  let st1 :=
    match st.low with
    | _ :: rest => some { st with low := rest, dropped := st.dropped + 1 }
    | [] =>
      match st.med with
      | _ :: rest => some { st with med := rest, dropped := st.dropped + 1 }
      | [] => none
  match st1 with
  | none => ({ st with dropped := st.dropped + 1 }, false)
  | some st2 =>
    if st2.high.length < highQueueSize then
      (updateEnqueueStats { st2 with high := st2.high ++ [highPkt] }
        PriorityHigh, true)
    else ({ st2 with dropped := st2.dropped + 1 }, false)

/-- Enqueue (`priority.go`): classify, try the level's channel, bump for
High on overflow, otherwise drop. -/
def enqueue (mode now : ℕ) (st : PQState) (data : List ℕ) :
    PQState × Bool :=
  let priority := classify mode data
  let pkt : PriorityPacket := ⟨data, priority, now⟩
  if (queueOf st priority).length < queueCap priority then
    (updateEnqueueStats (setQueue st priority (queueOf st priority ++ [pkt]))
      priority, true)
  else if priority = PriorityHigh then tryBump st pkt
  else ({ st with dropped := st.dropped + 1 }, false)

/-- checkStarvation (`priority.go`): receive the head, test its waiting
time, and send it back — to the TAIL of the channel (or drop it if the
queue refilled meanwhile, impossible in this sequential model). -/
def checkStarvation (now : ℕ) (st : PQState) (level : ℕ) :
    Bool × PQState :=
  match queueOf st level with
  | [] => (false, st)
  | pkt :: rest =>
    let isStarving := decide (starvationTimeoutNs < now - pkt.enqueuedAt)
    let q' := if rest.length < queueCap level then rest ++ [pkt] else rest
    (isStarving, setQueue st level q')

/-- The Medium-then-Low tail of Dequeue (`priority.go`). -/
def dequeueMedLow (st : PQState) : Option PriorityPacket × PQState :=
  match st.med with
  | pkt :: rest => (some pkt, { st with med := rest })
  | [] =>
    match st.low with
    | pkt :: rest => (some pkt, { st with low := rest })
    | [] => (none, st)

/-- Dequeue (`priority.go`): always drain High first; then consult the
starvation guard on Low, draining Low ahead of Medium when it fires;
then Medium; then Low. -/
def dequeue (now : ℕ) (st : PQState) : Option PriorityPacket × PQState :=
  match st.high with
  | pkt :: rest => (some pkt, { st with high := rest })
  | [] =>
    let guard := checkStarvation now st PriorityLow
    if guard.1 then
      match guard.2.low with
      | pkt :: rest => (some pkt, { guard.2 with low := rest })
      | [] => dequeueMedLow guard.2
    else dequeueMedLow guard.2

/-! ## Concrete environment for witnesses and counterexamples -/

/-- Modelled from the spec: the ChaCha20-Poly1305 `Seal` of the external
`golang.org/x/crypto` library returns the ciphertext with the 16-byte
Poly1305 tag appended (§4.3 "The ciphertext returned from encryption has
the 16-byte tag appended").  Only this length behaviour reaches the
claims, so the model keeps the plaintext bytes and appends a zero tag. -/
def modelSeal (key nonce plaintext additionalData : List ℕ) : List ℕ :=
  plaintext ++ List.replicate 16 0

/-- Modelled from the spec: the matching `Open`, accepting what
`modelSeal` produced and stripping the 16-byte tag. -/
def modelOpen (key nonce ciphertext additionalData : List ℕ) :
    Option (List ℕ) :=
  if 16 ≤ ciphertext.length then some (ciphertext.take (ciphertext.length - 16))
  else none

/-- A concrete environment instantiating the external primitives for
witnesses: X25519 returns a fixed non-zero point, HKDF distinguishes its
info argument, the AEAD is `modelSeal`/`modelOpen`, randomness is
constant. -/
def testEnv : Env where
  now := 1000000000
  nowUnix := 1700000000
  x25519 := fun _ _ => List.replicate 32 1
  hkdf := fun _ _ info =>
    if info = hkdfInfoClient then List.replicate 32 2 else List.replicate 32 3
  sha256 := fun _ => List.replicate 32 4
  aeadSeal := modelSeal
  aeadOpen := modelOpen
  randKey := fun _ => 7
  rand32 := fun _ => 8
  randCid := fun _ => 9
  intnR := 0
  randByte := fun _ => 0

/-! ## Claim C10 -/

theorem decodeFlags_error_kind (f : ℕ) (e : PacketErr)
    (h : decodeFlags f = .error e) : e = .badFlags := by
  unfold decodeFlags at h
  split at h
  · cases h
    rfl
  · split at h
    · cases h
      rfl
    · cases h

/-- C10: Unmarshal is total and in-bounds: for every input byte string
and every connIDLen between 4 and 20 it returns either an error value or
a Packet, and every multi-byte field read (version, CID, packet number,
payload length, payload) is preceded by a length check, so the
out-of-bounds branch of the embedded indexing (`PacketErr.oob`) is
unreachable. -/
theorem unmarshal_total_no_oob (data : List ℕ) (connIDLen : ℕ)
    (h4 : 4 ≤ connIDLen) (h20 : connIDLen ≤ 20) :
    unmarshal data connIDLen ≠ Except.error PacketErr.oob := by
  unfold unmarshal
  split
  · simp
  · next hlen =>
    push_neg at hlen
    have r0 : readBE data 0 1 = some (beVal (data.take 1)) := by
      unfold readBE readBytes
      rw [if_pos (by omega)]
      rfl
    rw [r0]
    rcases hdf : decodeFlags (beVal (data.take 1)) with e | ⟨ty, hp⟩
    · rw [decodeFlags_error_kind _ _ hdf] at hdf
      simp [hdf]
    · have r1 : readBE data 1 4 = some (beVal ((data.drop 1).take 4)) := by
        unfold readBE readBytes
        rw [if_pos (by omega)]
        rfl
      have r2 : readBytes data 5 connIDLen =
          some ((data.drop 5).take connIDLen) := by
        unfold readBytes
        rw [if_pos (by omega)]
      have r3 : readBE data (5 + connIDLen) 4 =
          some (beVal ((data.drop (5 + connIDLen)).take 4)) := by
        unfold readBE readBytes
        rw [if_pos (by omega)]
        rfl
      have r4 : readBE data (9 + connIDLen) 2 =
          some (beVal ((data.drop (9 + connIDLen)).take 2)) := by
        unfold readBE readBytes
        rw [if_pos (by omega)]
        rfl
      simp only [hdf, r1, r2, r3, r4]
      split
      · simp
      · split
        · simp
        · split
          · simp
          · next hplen =>
            have r5 : readBytes data (11 + connIDLen)
                (beVal ((data.drop (9 + connIDLen)).take 2)) =
                some ((data.drop (11 + connIDLen)).take
                  (beVal ((data.drop (9 + connIDLen)).take 2))) := by
              unfold readBytes
              rw [if_pos (by omega)]
            simp [r5]

/-- Witness for C10 at a concrete input. -/
theorem unmarshal_total_no_oob_witness :
    4 ≤ 8 ∧ 8 ≤ 20 ∧
      unmarshal [0xC3, 0, 0, 1] 8 ≠ Except.error PacketErr.oob :=
  ⟨by decide, by decide, unmarshal_total_no_oob [0xC3, 0, 0, 1] 8
    (by decide) (by decide)⟩

/-! ## Claim C6 -/

/-- C6: codec round trip: for every validated Config and every packet
whose ConnectionID length equals the configured connection_id_length,
whose payload is at most max_payload bytes, whose kind is one of the
four packet kinds and whose packet number is 32-bit (the Go field
types), Unmarshal of Marshal succeeds and yields a packet equal to the
original on kind, connection ID, packet number, and payload bytes —
for every padding draw. -/
theorem codec_roundtrip (config : Config) (p : Packet) (intnR : ℕ)
    (randByte : ℕ → ℕ)
    (hv : config.Valid)
    (hcid : p.connectionID.length = config.connectionIdLength)
    (hpl : p.payload.length ≤ config.getMaxPayloadSize)
    (hty : p.type < 4)
    (hpn : p.packetNumber < 2 ^ 32) :
    ∃ out p', p.marshal config intnR randByte = .ok out ∧
      unmarshal out config.connectionIdLength = .ok p' ∧
      p'.type = p.type ∧ p'.connectionID = p.connectionID ∧
      p'.packetNumber = p.packetNumber ∧ p'.payload = p.payload := by
  obtain ⟨out, h1, h2⟩ := marshal_unmarshal config p intnR randByte hv hcid
    (by omega) hty hpn
  exact ⟨out, _, h1, h2, rfl, rfl, rfl, rfl⟩

/-- Witness for C6 at a concrete input. -/
theorem codec_roundtrip_witness :
    defaultConfig.Valid ∧
    (⟨2, [0, 1, 2, 3, 4, 5, 6, 7], 5, [9, 8, 7], true⟩ :
      Packet).connectionID.length = defaultConfig.connectionIdLength ∧
    (⟨2, [0, 1, 2, 3, 4, 5, 6, 7], 5, [9, 8, 7], true⟩ :
      Packet).payload.length ≤ defaultConfig.getMaxPayloadSize ∧
    (∃ out p',
      (⟨2, [0, 1, 2, 3, 4, 5, 6, 7], 5, [9, 8, 7], true⟩ :
        Packet).marshal defaultConfig 0 (fun _ => 0) = .ok out ∧
      unmarshal out defaultConfig.connectionIdLength = .ok p' ∧
      p'.type = 2 ∧ p'.connectionID = [0, 1, 2, 3, 4, 5, 6, 7] ∧
      p'.packetNumber = 5 ∧ p'.payload = [9, 8, 7]) :=
  ⟨by decide, by decide, by decide,
    codec_roundtrip defaultConfig ⟨2, [0, 1, 2, 3, 4, 5, 6, 7], 5, [9, 8, 7],
      true⟩ 0 (fun _ => 0) (by decide) (by decide) (by decide) (by decide)
      (by decide)⟩

/-! ## Claim C3 -/

theorem chunksOfFuel_length_le (fuel m : ℕ) :
    ∀ (l : List ℕ), ∀ c ∈ chunksOfFuel fuel m l, c.length ≤ m := by
  induction fuel with
  | zero =>
    intro l c hc
    cases l <;> simp [chunksOfFuel] at hc
  | succ fuel ih =>
    intro l c hc
    cases l with
    | nil => simp [chunksOfFuel] at hc
    | cons a as =>
      by_cases hm : m = 0
      · simp [chunksOfFuel, hm] at hc
      · rw [chunksOfFuel, if_neg hm] at hc
        rcases List.mem_cons.mp hc with rfl | hc
        · simp [List.length_take]
        · exact ih _ c hc

theorem chunksOf_length_le (m : ℕ) (l : List ℕ) :
    ∀ c ∈ chunksOf m l, c.length ≤ m :=
  chunksOfFuel_length_le l.length m l

/-- Datagram bound along `clientWriteChunks`, provided every chunk fits
`GetMaxPayloadSize` and the AEAD appends a 16-byte tag. -/
theorem clientWriteChunks_length_le (env : Env) (config : Config)
    (hv : config.Valid)
    (hseal : ∀ k n pt ad, (env.aeadSeal k n pt ad).length = pt.length + 16) :
    ∀ (chunks : List (List ℕ)) (s : ClientSession),
      (∀ c ∈ chunks, c.length ≤ config.getMaxPayloadSize) →
      ∀ d ∈ (clientWriteChunks env config s chunks).2,
        d.length ≤ config.mtu + config.paddingMaxSize ∧
        (config.enablePadding = false → d.length ≤ config.mtu) := by
  intro chunks
  induction chunks with
  | nil =>
    intro s hlen d hd
    simp [clientWriteChunks] at hd
  | cons c rest ih =>
    intro s hlen d hd
    rw [clientWriteChunks] at hd
    dsimp only at hd
    rcases hm : (newDataPacket s.connectionID
        (nextSendPacketNum s.sendPacketNum)
        (s.keys.encrypt env c (nextSendPacketNum s.sendPacketNum)
          (dataPacketAD config s.connectionID))
        config.enablePadding).marshal config env.intnR env.randByte with
      e | out
    · rw [hm] at hd
      simp at hd
    · rw [hm] at hd
      simp only [List.mem_cons] at hd
      rcases hd with rfl | hd
      · have hct : (s.keys.encrypt env c (nextSendPacketNum s.sendPacketNum)
            (dataPacketAD config s.connectionID)).length =
            c.length + 16 := hseal _ _ _ _
        refine marshal_length_le _ config env.intnR env.randByte d hv hm ?_
        have := hlen c (List.mem_cons_self c rest)
        simp only [newDataPacket]
        rw [hct]
        omega
      · exact ih _ (fun c' hc' => hlen c' (List.mem_cons_of_mem c hc')) d hd

/-- C3 (amended): for every validated Config, every client session and
every application buffer, each UDP datagram produced by the chunked
write path has encoded length at most `mtu + padding_max`; the `mtu`
itself caps the datagram only when padding is disabled —
`GetMaxPayloadSize` reserves the 2-byte padding-length trailer but not
the padding bytes Marshal appends. -/
theorem write_datagram_bounds (env : Env) (config : Config)
    (s : ClientSession) (b : List ℕ)
    (hv : config.Valid)
    (hseal : ∀ k n pt ad, (env.aeadSeal k n pt ad).length = pt.length + 16) :
    ∀ d ∈ (clientWrite env config s b).2,
      d.length ≤ config.mtu + config.paddingMaxSize ∧
      (config.enablePadding = false → d.length ≤ config.mtu) := by
  intro d hd
  exact clientWriteChunks_length_le env config hv hseal _ s
    (chunksOf_length_le _ _) d hd

set_option maxRecDepth 100000 in
/-- Counterexample to C3 as stated: with the default (validated)
configuration — padding enabled — a full-size chunk yields a 1440-byte
datagram, above the 1400-byte mtu. -/
theorem mtu_cap_counterexample :
    defaultConfig.Valid ∧
    (List.replicate 8 (0:ℕ)).length = defaultConfig.connectionIdLength ∧
    (List.replicate 1363 (0:ℕ)).length ≤ defaultConfig.getMaxPayloadSize ∧
    (clientWrite testEnv defaultConfig
      ⟨List.replicate 8 0, ⟨List.replicate 32 1, List.replicate 32 2⟩, 1, 0⟩
      (List.replicate 1363 0)).2.headI.length = 1440 ∧
    ¬((clientWrite testEnv defaultConfig
      ⟨List.replicate 8 0, ⟨List.replicate 32 1, List.replicate 32 2⟩, 1, 0⟩
      (List.replicate 1363 0)).2.headI.length ≤ defaultConfig.mtu) := by
  refine ⟨by decide, by decide, by decide, ?_, ?_⟩ <;> decide

/-- Witness for the amended C3 at a concrete input. -/
theorem write_datagram_bounds_witness :
    defaultConfig.Valid ∧
    (∀ k n pt ad, (testEnv.aeadSeal k n pt ad).length = pt.length + 16) ∧
    (∀ d ∈ (clientWrite testEnv defaultConfig
        ⟨List.replicate 8 0, ⟨List.replicate 32 1, List.replicate 32 2⟩, 1, 0⟩
        [1, 2, 3]).2,
      d.length ≤ defaultConfig.mtu + defaultConfig.paddingMaxSize ∧
      (defaultConfig.enablePadding = false →
        d.length ≤ defaultConfig.mtu)) :=
  ⟨by decide,
    fun k n pt ad => by simp [testEnv, modelSeal],
    write_datagram_bounds testEnv defaultConfig
      ⟨List.replicate 8 0, ⟨List.replicate 32 1, List.replicate 32 2⟩, 1, 0⟩
      [1, 2, 3] (by decide)
      (fun k n pt ad => by simp [testEnv, modelSeal])⟩

/-! ## Claim C5 -/

/-- C5 (amended): the Hub's idle-session timeout equals
`keepalive_interval × 3` seconds — the product taken in `uint32`, so
modulo `2^32` — when keep-alive is enabled, and 5 minutes when it is
disabled (not the max of the two); a session whose last activity is
older than that bound is removed at the next reaper tick, and a
session idle no longer than the bound is kept. -/
theorem hub_idle_reap (config : Config) (now : ℕ)
    (sessions : List (List ℕ × Session)) (key : List ℕ) (s : Session)
    (hmem : (key, s) ∈ sessions) :
    hubSessionTimeout config =
      (if config.keepAliveInterval = 0 then 300
       else config.keepAliveInterval * 3 % 2 ^ 32) * 1000000000 ∧
    (hubSessionTimeout config < now - s.lastActiveAt →
      (key, s) ∉ cleanupTick now (hubSessionTimeout config) sessions) ∧
    (now - s.lastActiveAt ≤ hubSessionTimeout config →
      (key, s) ∈ cleanupTick now (hubSessionTimeout config) sessions) := by
  refine ⟨?_, ?_, ?_⟩
  · unfold hubSessionTimeout
    split <;> ring
  · intro hidle hmem'
    have hkeep := (List.mem_filter.mp hmem').2
    simp only [Bool.not_eq_true', decide_eq_false_iff_not] at hkeep
    exact hkeep hidle
  · intro hidle
    refine List.mem_filter.mpr ⟨hmem, ?_⟩
    simp only [Bool.not_eq_true', decide_eq_false_iff_not]
    omega

/-- Witness for the amended C5 at a concrete input. -/
theorem hub_idle_reap_witness :
    (([3], (⟨[3], 1, 0, ⟨[], []⟩, none, 0, 0, 0, 0, 0, 0, 0, 0⟩ : Session))
        ∈ [([3], (⟨[3], 1, 0, ⟨[], []⟩, none, 0, 0, 0, 0, 0, 0, 0, 0⟩ :
          Session))]) ∧
    (hubSessionTimeout defaultConfig =
      (if defaultConfig.keepAliveInterval = 0 then 300
       else defaultConfig.keepAliveInterval * 3 % 2 ^ 32) * 1000000000 ∧
    (hubSessionTimeout defaultConfig < 50000000000 - 0 →
      (([3], (⟨[3], 1, 0, ⟨[], []⟩, none, 0, 0, 0, 0, 0, 0, 0, 0⟩ : Session))
        ∉ cleanupTick 50000000000 (hubSessionTimeout defaultConfig)
          [([3], ⟨[3], 1, 0, ⟨[], []⟩, none, 0, 0, 0, 0, 0, 0, 0, 0⟩)])) ∧
    (50000000000 - 0 ≤ hubSessionTimeout defaultConfig →
      (([3], (⟨[3], 1, 0, ⟨[], []⟩, none, 0, 0, 0, 0, 0, 0, 0, 0⟩ : Session))
        ∈ cleanupTick 50000000000 (hubSessionTimeout defaultConfig)
          [([3], ⟨[3], 1, 0, ⟨[], []⟩, none, 0, 0, 0, 0, 0, 0, 0, 0⟩)]))) :=
  ⟨by decide, hub_idle_reap defaultConfig 50000000000 _ [3]
    ⟨[3], 1, 0, ⟨[], []⟩, none, 0, 0, 0, 0, 0, 0, 0, 0⟩ (by decide)⟩

/-- Counterexample to C5 as stated: with the default configuration
(keepalive 15 s) the embedded timeout is 45 s, not
`max(45 s, 5 min) = 5 min`, and a session idle for 100 s — which the
max-formula would keep — is removed at the next reaper tick. -/
theorem idle_timeout_counterexample :
    hubSessionTimeout defaultConfig = 45000000000 ∧
    hubSessionTimeout defaultConfig ≠
      max (defaultConfig.keepAliveInterval * 3 * 1000000000)
        (300 * 1000000000) ∧
    cleanupTick 100000000000 (hubSessionTimeout defaultConfig)
      [([7], ⟨[7], 1, 0, ⟨[], []⟩, none, 1, 0, 0, 0, 0, 0, 0, 0⟩)] = [] := by
  refine ⟨by decide, by decide, by decide⟩

/-! ## Claim C9 -/

/-- C9: when High is empty, `checkStarvation` removes the Low head and
re-inserts it at the tail, so Low is rotated rather than peeked; when
the guard fires, the packet `Dequeue` then takes from Low is the element
that stood behind the triggering head; when it does not fire and Medium
is non-empty, Dequeue falls through to Medium with Low left rotated
(hence not FIFO across such calls). -/
theorem starvation_guard_rotates (now : ℕ) (st : PQState)
    (p q : PriorityPacket) (rest : List PriorityPacket)
    (hhigh : st.high = [])
    (hlow : st.low = p :: q :: rest)
    (hcap : st.low.length ≤ lowQueueSize) :
    (checkStarvation now st PriorityLow).2.low = (q :: rest) ++ [p] ∧
    (starvationTimeoutNs < now - p.enqueuedAt →
      (dequeue now st).1 = some q ∧
      (dequeue now st).2.low = rest ++ [p]) ∧
    (¬ starvationTimeoutNs < now - p.enqueuedAt →
      ∀ m ms, st.med = m :: ms →
        (dequeue now st).1 = some m ∧
        (dequeue now st).2.low = (q :: rest) ++ [p]) := by
  have hq : queueOf st PriorityLow = st.low := by
    simp [queueOf, PriorityLow, PriorityHigh, PriorityMedium]
  have hlen : (q :: rest).length < queueCap PriorityLow := by
    rw [hlow] at hcap
    have hq128 : queueCap PriorityLow = 128 := rfl
    have hl128 : lowQueueSize = 128 := rfl
    rw [hq128]
    rw [hl128] at hcap
    simp only [List.length_cons] at hcap ⊢
    omega
  have hcs : checkStarvation now st PriorityLow =
      (decide (starvationTimeoutNs < now - p.enqueuedAt),
        setQueue st PriorityLow ((q :: rest) ++ [p])) := by
    unfold checkStarvation
    rw [hq, hlow]
    dsimp only
    rw [if_pos hlen]
  have hsq_low : (setQueue st PriorityLow ((q :: rest) ++ [p])).low =
      (q :: rest) ++ [p] := by
    simp [setQueue, PriorityLow, PriorityHigh, PriorityMedium]
  have hsq_med : (setQueue st PriorityLow ((q :: rest) ++ [p])).med =
      st.med := by
    simp [setQueue, PriorityLow, PriorityHigh, PriorityMedium]
  refine ⟨by rw [hcs, hsq_low], ?_, ?_⟩
  · intro hstarve
    have hdq : dequeue now st =
        (some q, { setQueue st PriorityLow ((q :: rest) ++ [p]) with
          low := rest ++ [p] }) := by
      unfold dequeue
      rw [hhigh]
      dsimp only
      rw [hcs]
      dsimp only
      rw [if_pos (by simpa using hstarve)]
      rw [hsq_low]
      try rfl
    rw [hdq]
    constructor
    · rfl
    · rfl
  · intro hnostarve m ms hmed
    have hdq : dequeue now st =
        (some m, { setQueue st PriorityLow ((q :: rest) ++ [p]) with
          med := ms }) := by
      unfold dequeue
      rw [hhigh]
      dsimp only
      rw [hcs]
      dsimp only
      rw [if_neg (by simpa using hnostarve)]
      unfold dequeueMedLow
      rw [hsq_med, hmed]
      try rfl
    rw [hdq]
    exact ⟨rfl, by rw [hsq_low]⟩

/-- Witness for C9 at a concrete input. -/
theorem starvation_guard_rotates_witness :
    (⟨[], [], [⟨[1], 2, 0⟩, ⟨[2], 2, 100⟩], 0, 0, 0, 0⟩ :
      PQState).high = [] ∧
    ((⟨[], [], [⟨[1], 2, 0⟩, ⟨[2], 2, 100⟩], 0, 0, 0, 0⟩ :
      PQState).low = ⟨[1], 2, 0⟩ :: ⟨[2], 2, 100⟩ :: []) ∧
    ((checkStarvation 600000001
        ⟨[], [], [⟨[1], 2, 0⟩, ⟨[2], 2, 100⟩], 0, 0, 0, 0⟩
        PriorityLow).2.low = (⟨[2], 2, 100⟩ :: []) ++ [⟨[1], 2, 0⟩]) ∧
    ((dequeue 600000001
        ⟨[], [], [⟨[1], 2, 0⟩, ⟨[2], 2, 100⟩], 0, 0, 0, 0⟩).1 =
      some ⟨[2], 2, 100⟩) :=
  have h := starvation_guard_rotates 600000001
    ⟨[], [], [⟨[1], 2, 0⟩, ⟨[2], 2, 100⟩], 0, 0, 0, 0⟩
    ⟨[1], 2, 0⟩ ⟨[2], 2, 100⟩ [] rfl rfl (by decide)
  ⟨rfl, rfl, h.1, (h.2.1 (by decide)).1⟩

/-! ## Claim C8 -/

set_option maxRecDepth 4000 in
theorem decodeFlags_of_quicLike (b : ℕ) (hb : b < 256)
    (hq : isQUICLike b = true) :
    decodeFlags b = .ok ((b &&& flagTypeMask) >>> flagTypeShift,
      decide (b &&& flagPaddingBit ≠ 0)) := by
  revert hb hq
  revert b
  decide

/-- C8: RoutePacket drops — returning an error and leaving the hub
state untouched — every datagram shorter than MinPacketSize (29) or
whose first byte is not QUIC-like; when the extracted CID matches no
session it runs the new-session flow exactly for Handshake packets and
rejects every other kind with the unknown-CID error, again leaving the
table unchanged. -/
theorem route_packet_rejections (env : Env) (config : Config)
    (h : HubState) (data : List ℕ) (remoteAddr : ℕ)
    (hv : config.Valid) (hb : data.headI < 256) :
    (data.length < minPacketSize →
      routePacket env config h data remoteAddr = (.error .tooShort, h)) ∧
    (minPacketSize ≤ data.length → isQUICLike data.headI = false →
      routePacket env config h data remoteAddr = (.error .notQuicLike, h)) ∧
    (minPacketSize ≤ data.length → isQUICLike data.headI = true →
      findSession h.sessions ((data.drop 5).take config.connectionIdLength)
        = none →
      (((data.headI &&& flagTypeMask) >>> flagTypeShift ≠
          PacketType_HANDSHAKE →
        routePacket env config h data remoteAddr = (.error .unknownCid, h)) ∧
      ((data.headI &&& flagTypeMask) >>> flagTypeShift =
          PacketType_HANDSHAKE →
        routePacket env config h data remoteAddr =
          handleNewHandshake env config h data
            ((data.drop 5).take config.connectionIdLength) remoteAddr))) := by
  obtain ⟨-, -, -, -, hc1, hc2, -, -⟩ := hv
  refine ⟨?_, ?_, ?_⟩
  · intro hshort
    unfold routePacket
    rw [if_pos hshort]
  · intro hlong hquic
    unfold routePacket
    rw [if_neg (by omega), if_pos (by simp [hquic])]
  · intro hlong hquic hfind
    have hflags := decodeFlags_of_quicLike data.headI hb hquic
    have hlong29 : 29 ≤ data.length := by
      simpa [minPacketSize] using hlong
    constructor
    · intro hty
      unfold routePacket
      rw [if_neg (by omega), if_neg (by simp [hquic]),
        if_neg (by omega)]
      dsimp only
      rw [hflags]
      dsimp only
      rw [hfind]
      dsimp only
      rw [if_neg hty]
    · intro hty
      unfold routePacket
      rw [if_neg (by omega), if_neg (by simp [hquic]),
        if_neg (by omega)]
      dsimp only
      rw [hflags]
      dsimp only
      rw [hfind]
      dsimp only
      rw [if_pos hty]

/-- Witness for C8 at a concrete input: a 29-byte Data-kind datagram on
an empty hub is rejected with the unknown-CID error and the table stays
empty. -/
theorem route_packet_rejections_witness :
    defaultConfig.Valid ∧
    (0xC0 :: List.replicate 28 (0:ℕ)).headI < 256 ∧
    ((minPacketSize ≤ (0xC0 :: List.replicate 28 (0:ℕ)).length →
      isQUICLike (0xC0 :: List.replicate 28 (0:ℕ)).headI = true →
      findSession (⟨[], 0, 0⟩ : HubState).sessions
        (((0xC0 :: List.replicate 28 (0:ℕ)).drop 5).take
          defaultConfig.connectionIdLength) = none →
      ((((0xC0 :: List.replicate 28 (0:ℕ)).headI &&& flagTypeMask) >>>
          flagTypeShift ≠ PacketType_HANDSHAKE →
        routePacket testEnv defaultConfig ⟨[], 0, 0⟩
          (0xC0 :: List.replicate 28 (0:ℕ)) 0 =
          (.error .unknownCid, ⟨[], 0, 0⟩)) ∧
      (((0xC0 :: List.replicate 28 (0:ℕ)).headI &&& flagTypeMask) >>>
          flagTypeShift = PacketType_HANDSHAKE →
        routePacket testEnv defaultConfig ⟨[], 0, 0⟩
          (0xC0 :: List.replicate 28 (0:ℕ)) 0 =
          handleNewHandshake testEnv defaultConfig ⟨[], 0, 0⟩
            (0xC0 :: List.replicate 28 (0:ℕ))
            (((0xC0 :: List.replicate 28 (0:ℕ)).drop 5).take
              defaultConfig.connectionIdLength) 0)))) :=
  ⟨by decide, by decide,
    (route_packet_rejections testEnv defaultConfig ⟨[], 0, 0⟩
      (0xC0 :: List.replicate 28 (0:ℕ)) 0 (by decide) (by decide)).2.2⟩

/-! ## Claim C1 -/

/-- C1 (code evaluated at the failing input): when a session's send
counter stands at `2^32 − 1`, the next `SendToSession` does not refuse
and does not tear the session down — `atomic.AddUint32` wraps the
counter to 0 and the datagram goes out carrying packet number 0, so the
(key, nonce) pair of packet number 0 is reused under the same key. -/
theorem packet_counter_wraps_and_sends :
    nextSendPacketNum (2 ^ 32 - 1) = 0 ∧
    buildNonce (nextSendPacketNum (2 ^ 32 - 1)) = buildNonce 0 ∧
    ((hubSendToSession testEnv defaultConfig ⟨[], 0, 0⟩
        ⟨List.replicate 8 0, 1, 0,
          ⟨List.replicate 32 1, List.replicate 32 2⟩, none,
          2 ^ 32 - 1, 0, 0, 0, 0, 0, 0, 0⟩
        [42]).1.toOption.map (fun x => x.1.sendPacketNum)) = some 0 ∧
    ((hubSendToSession testEnv defaultConfig ⟨[], 0, 0⟩
        ⟨List.replicate 8 0, 1, 0,
          ⟨List.replicate 32 1, List.replicate 32 2⟩, none,
          2 ^ 32 - 1, 0, 0, 0, 0, 0, 0, 0⟩
        [42]).1.toOption.map
      (fun x => (unmarshal x.2 8).toOption.map Packet.packetNumber)) =
      some (some 0) := by
  refine ⟨by decide, by decide, by decide, by decide⟩

/-! ## Claim C4 -/

/-- C4 (code evaluated at the failing input): with the default
configuration (`keepalive_interval_s = 15`) the timeout handler emits a
KeepAlive datagram unconditionally — the client tracks no last-send
time, so the handler fires on every 1-second read timeout whether or not
the interval has elapsed. -/
theorem keepalive_ignores_elapsed :
    defaultConfig.keepAliveInterval = 15 ∧
    ((maybeKeepAlive testEnv defaultConfig
        ⟨List.replicate 8 3, ⟨List.replicate 32 1, List.replicate 32 2⟩,
          5, 0⟩).2.map
      (fun d => (unmarshal d 8).toOption.map Packet.type)) =
      some (some PacketType_KEEPALIVE) := by
  exact ⟨by decide, by decide⟩

/-! ## Claim C2 -/

theorem generateConnectionID_length (env : Env) (n : ℕ) (cid : List ℕ)
    (h : generateConnectionID env n = .ok cid) : cid.length = n := by
  unfold generateConnectionID at h
  split at h
  · cases h
  · simp only [Except.ok.injEq] at h
    subst h
    simp

/-- Facts about a successful client handshake: the ClientHello carries
packet number 0, and the fresh session's counter stands at 1 with a
connection ID of the configured length. -/
theorem performHandshake_ok_facts (env : Env) (config : Config)
    (shd : List ℕ) (hello : Packet) (helloData : List ℕ)
    (s : ClientSession)
    (hps : performHandshake env config shd = .ok (hello, helloData, s)) :
    hello.packetNumber = 0 ∧ hello.type = PacketType_HANDSHAKE ∧
    s.sendPacketNum = 1 ∧
    s.connectionID.length = config.connectionIdLength := by
  unfold performHandshake at hps
  rcases hgen : generateConnectionID env config.connectionIdLength
    with e | connID
  · rw [hgen] at hps
    simp at hps
  · rw [hgen] at hps
    dsimp only at hps
    rcases hm : (newHandshakePacket connID 0
        (newHandshakePayload env (generateKeyPair env).publicKey
          env.nowUnix).marshal).marshal config env.intnR env.randByte
      with e | chd
    · rw [hm] at hps
      simp at hps
    · rw [hm] at hps
      rcases hu : unmarshal shd config.connectionIdLength with e | spkt
      · rw [hu] at hps
        simp at hps
      · rw [hu] at hps
        dsimp only at hps
        by_cases hty : spkt.type ≠ PacketType_HANDSHAKE
        · rw [if_pos hty] at hps
          simp at hps
        · rw [if_neg hty] at hps
          rcases hh : unmarshalHandshake spkt.payload with e | shp
          · rw [hh] at hps
            simp at hps
          · rw [hh] at hps
            dsimp only at hps
            rcases hcs : computeSharedSecret env
                (generateKeyPair env).privateKey shp.publicKey with e | ss
            · rw [hcs] at hps
              simp at hps
            · rw [hcs] at hps
              dsimp only at hps
              simp only [Except.ok.injEq, Prod.mk.injEq] at hps
              obtain ⟨h1, h2, h3⟩ := hps
              subst h1 h2
              refine ⟨rfl, rfl, by rw [← h3], ?_⟩
              rw [← h3]
              exact generateConnectionID_length env _ _ hgen

theorem nextSendPacketNum_lt (n : ℕ) : nextSendPacketNum n < 2 ^ 32 :=
  Nat.mod_lt _ (by norm_num)

theorem chunksOf_cons (m : ℕ) (b : List ℕ) (hm : m ≠ 0) (hb : b ≠ []) :
    chunksOf m b =
      b.take m :: chunksOfFuel (b.length - 1) m (b.drop m) := by
  cases b with
  | nil => cases hb rfl
  | cons a as =>
    show chunksOfFuel (as.length + 1) m (a :: as) = _
    rw [chunksOfFuel, if_neg hm]
    rfl

/-- The first datagram of a non-empty `Write` decodes to packet number
`sendPacketNum + 1` (the pre-incremented counter). -/
theorem clientWrite_first_pn (env : Env) (config : Config)
    (s : ClientSession) (b : List ℕ)
    (hv : config.Valid)
    (hcid : s.connectionID.length = config.connectionIdLength)
    (hseal : ∀ k n pt ad, (env.aeadSeal k n pt ad).length = pt.length + 16)
    (hb : b ≠ []) :
    (unmarshal (clientWrite env config s b).2.headI
        config.connectionIdLength).toOption.map Packet.packetNumber =
      some (nextSendPacketNum s.sendPacketNum) := by
  have hmps := getMaxPayloadSize_of_valid config hv
  have hvv := hv
  obtain ⟨hm1, hm2, -, -, hc1, hc2, -, -⟩ := hvv
  have hm0 : config.getMaxPayloadSize ≠ 0 := by
    rw [hmps]
    split <;> omega
  have hch := chunksOf_cons config.getMaxPayloadSize b hm0 hb
  set pn := nextSendPacketNum s.sendPacketNum with hpn
  set ct := s.keys.encrypt env (b.take config.getMaxPayloadSize) pn
    (dataPacketAD config s.connectionID) with hct
  have hctlen : ct.length < 65536 := by
    rw [hct]
    unfold SessionKeys.encrypt
    rw [hseal]
    have hble : (b.take config.getMaxPayloadSize).length ≤
        config.getMaxPayloadSize := by
      simp [List.length_take]
    have hmle : config.getMaxPayloadSize ≤ 1500 := by
      rw [hmps]
      split <;> omega
    omega
  have hme := marshal_eq (newDataPacket s.connectionID pn ct
    config.enablePadding) config env.intnR env.randByte hcid
  unfold clientWrite
  rw [hch, clientWriteChunks]
  dsimp only
  rw [← hct, hme]
  dsimp only
  have hdec := unmarshal_encoded_buffer
    (newDataPacket s.connectionID pn ct config.enablePadding)
    config.connectionIdLength
    (if (newDataPacket s.connectionID pn ct config.enablePadding).hasPadding
        && decide (0 < marshalPadSize (newDataPacket s.connectionID pn ct
          config.enablePadding) config env.intnR) then
      (List.range (marshalPadSize (newDataPacket s.connectionID pn ct
        config.enablePadding) config env.intnR)).map env.randByte ++
        beBytes 2 (marshalPadSize (newDataPacket s.connectionID pn ct
          config.enablePadding) config env.intnR)
     else [])
    (by norm_num [newDataPacket, PacketType_DATA]) hcid
    (nextSendPacketNum_lt _) hctlen
  rw [List.headI]
  rw [hdec]
  rfl

/-- Facts about a successful new-session handshake on the Hub: the
registered session is Active with its counter at 1, and the single
datagram written back — the ServerHello — decodes to packet number 1. -/
theorem handleNewHandshake_ok_facts (env : Env) (config : Config)
    (h : HubState) (data connID : List ℕ) (remoteAddr : ℕ)
    (sv : Session) (pt : Option (List ℕ)) (dgs : List (List ℕ))
    (h2 : HubState)
    (hcid : connID.length = config.connectionIdLength)
    (hx : ∀ a c, (env.x25519 a c).length = 32)
    (hnh : handleNewHandshake env config h data connID remoteAddr =
      (.ok (sv, pt, dgs), h2)) :
    sv.sendPacketNum = 1 ∧ sv.state = SessionState_ACTIVE ∧
    sv.id = connID ∧ pt = none ∧
    ∃ d, dgs = [d] ∧
      (unmarshal d config.connectionIdLength).toOption.map
        Packet.packetNumber = some 1 := by
  have h10 : nextSendPacketNum 0 = 1 := by
    unfold nextSendPacketNum
    norm_num
  unfold handleNewHandshake at hnh
  rcases hu : unmarshal data config.connectionIdLength with e | pkt
  · rw [hu] at hnh
    simp at hnh
  · rw [hu] at hnh
    dsimp only at hnh
    rcases hh : unmarshalHandshake pkt.payload with e | ch
    · rw [hh] at hnh
      simp at hnh
    · rw [hh] at hnh
      dsimp only at hnh
      rcases hcs : computeSharedSecret env (generateKeyPair env).privateKey
          ch.publicKey with e | ss
      · rw [hcs] at hnh
        simp at hnh
      · rw [hcs] at hnh
        dsimp only at hnh
        rw [sendServerHello] at hnh
        dsimp only at hnh
        rcases hm : (newHandshakePacket connID (nextSendPacketNum 0)
            (newHandshakePayload env (generateKeyPair env).publicKey
              env.nowUnix).marshal).marshal config env.intnR env.randByte
          with e | d
        · rw [hm] at hnh
          simp at hnh
        · rw [hm] at hnh
          dsimp only at hnh
          simp only [Prod.mk.injEq, Except.ok.injEq] at hnh
          obtain ⟨⟨hsv, hpt, hdgs⟩, -⟩ := hnh
          subst hsv hpt hdgs
          refine ⟨by simp [h10], rfl, rfl, rfl, d, rfl, ?_⟩
          rw [marshal_eq _ config env.intnR env.randByte (by simpa using hcid)]
            at hm
          simp only [Except.ok.injEq] at hm
          subst hm
          rw [unmarshal_encoded_buffer
            (newHandshakePacket connID (nextSendPacketNum 0)
              (newHandshakePayload env (generateKeyPair env).publicKey
                env.nowUnix).marshal)
            config.connectionIdLength _
            (by norm_num [newHandshakePacket, PacketType_HANDSHAKE])
            (by simpa using hcid) (nextSendPacketNum_lt _)
            (by
              simp only [newHandshakePacket, HandshakePayload.marshal,
                newHandshakePayload]
              simp [List.length_append, beBytes_length, generateKeyPair, hx])]
          simp [newHandshakePacket, h10]
          exact ⟨_, rfl, rfl⟩

/-- Counter drawn by SendToSession for any payload: the pre-incremented
value, visible in the returned session. -/
theorem hubSendToSession_pn (env : Env) (config : Config) (h : HubState)
    (s : Session) (pl : List ℕ)
    (hactive : s.state = SessionState_ACTIVE)
    (hcid : s.id.length = config.connectionIdLength) :
    ((hubSendToSession env config h s pl).1.toOption.map
      (fun x => x.1.sendPacketNum)) =
      some (nextSendPacketNum s.sendPacketNum) := by
  unfold hubSendToSession
  rw [if_neg (by simp [hactive])]
  dsimp only
  rw [marshal_eq _ config env.intnR env.randByte
    (by simpa [newDataPacket] using hcid)]
  rfl

/-- C2 (amended): the ClientHello is sent with packet number 0 and the
ServerHello with packet number 1; but the first client Data packet
carries packet number 2 — the client counter is initialised to 1 after
its Hello and `AddUint32` pre-increments, so number 1 is never used by
the client — and the first server Data packet carries packet number 2. -/
theorem handshake_packet_numbers (env : Env) (config : Config)
    (shd : List ℕ) (hello : Packet) (helloData : List ℕ)
    (s : ClientSession) (b : List ℕ) (h : HubState) (data connID : List ℕ)
    (remoteAddr : ℕ) (sv : Session) (pt : Option (List ℕ))
    (dgs : List (List ℕ)) (h2 : HubState) (pl : List ℕ)
    (hv : config.Valid)
    (hseal : ∀ k n pt2 ad, (env.aeadSeal k n pt2 ad).length = pt2.length + 16)
    (hx : ∀ a c, (env.x25519 a c).length = 32)
    (hps : performHandshake env config shd = .ok (hello, helloData, s))
    (hb : b ≠ [])
    (hcid : connID.length = config.connectionIdLength)
    (hnh : handleNewHandshake env config h data connID remoteAddr =
      (.ok (sv, pt, dgs), h2)) :
    hello.packetNumber = 0 ∧
    s.sendPacketNum = 1 ∧
    (unmarshal (clientWrite env config s b).2.headI
        config.connectionIdLength).toOption.map Packet.packetNumber =
      some 2 ∧
    (∃ d, dgs = [d] ∧
      (unmarshal d config.connectionIdLength).toOption.map
        Packet.packetNumber = some 1) ∧
    ((hubSendToSession env config h2 sv pl).1.toOption.map
      (fun x => x.1.sendPacketNum)) = some 2 := by
  have h12 : nextSendPacketNum 1 = 2 := by
    unfold nextSendPacketNum
    norm_num
  obtain ⟨hh0, -, hs1, hslen⟩ :=
    performHandshake_ok_facts env config shd hello helloData s hps
  obtain ⟨hsv1, hsvA, hsvid, -, hd⟩ :=
    handleNewHandshake_ok_facts env config h data connID remoteAddr sv pt
      dgs h2 hcid hx hnh
  refine ⟨hh0, hs1, ?_, hd, ?_⟩
  · have hw := clientWrite_first_pn env config s b hv hslen hseal hb
    rw [hs1, h12] at hw
    exact hw
  · have hw := hubSendToSession_pn env config h2 sv pl hsvA
      (by rw [hsvid]; exact hcid)
    rw [hsv1, h12] at hw
    exact hw

/-- A concrete, well-formed ServerHello datagram for the default
configuration, used to drive the embedded client handshake. -/
def serverHelloWit : List ℕ :=
  (((newHandshakePacket ((List.range 8).map testEnv.randCid) 1
      ((newHandshakePayload testEnv (List.replicate 32 1) 0).marshal)).marshal
    defaultConfig 0 (fun _ => 0)).toOption.getD [])

/-- The client session produced by the embedded handshake on
`serverHelloWit`. -/
def clientSessionWit : ClientSession :=
  ((performHandshake testEnv defaultConfig serverHelloWit).toOption.map
    (fun r => r.2.2)).getD ⟨[], ⟨[], []⟩, 0, 0⟩

/-- The ClientHello packet of that handshake. -/
def clientHelloPktWit : Packet :=
  ((performHandshake testEnv defaultConfig serverHelloWit).toOption.map
    (fun r => r.1)).getD ⟨0, [], 0, [], false⟩

/-- The encoded ClientHello of that handshake. -/
def clientHelloDataWit : List ℕ :=
  ((performHandshake testEnv defaultConfig serverHelloWit).toOption.map
    (fun r => r.2.1)).getD []

/-- An empty hub. -/
def hubWit0 : HubState := ⟨[], 0, 0⟩

/-- The connection ID the embedded client draws. -/
def cidWit : List ℕ := (List.range 8).map testEnv.randCid

/-- Result of routing a fresh handshake into the empty hub. -/
def hnhWit : Except RouteErr RouteOk × HubState :=
  handleNewHandshake testEnv defaultConfig hubWit0 serverHelloWit cidWit 0

/-- The session that handshake registers. -/
def svWit : Session :=
  (hnhWit.1.toOption.map (fun r => r.1)).getD
    ⟨[], 0, 0, ⟨[], []⟩, none, 0, 0, 0, 0, 0, 0, 0, 0⟩

/-- The plaintext that handshake returns. -/
def ptWit : Option (List ℕ) :=
  (hnhWit.1.toOption.map (fun r => r.2.1)).getD (some [])

/-- The datagrams that handshake writes back. -/
def dgsWit : List (List ℕ) :=
  (hnhWit.1.toOption.map (fun r => r.2.2)).getD []

set_option maxRecDepth 100000 in
/-- Counterexample to C2 as stated: after a successful handshake the
client counter stands at 1 ("0 used for the ClientHello"), yet the
first client Data packet decodes to packet number 2, not 1 —
`atomic.AddUint32` returns the incremented value, so packet number 1 is
never used by the client. -/
theorem first_client_data_pn_counterexample :
    performHandshake testEnv defaultConfig serverHelloWit =
      .ok (clientHelloPktWit, clientHelloDataWit, clientSessionWit) ∧
    clientSessionWit.sendPacketNum = 1 ∧
    (unmarshal ((clientWrite testEnv defaultConfig clientSessionWit
        [1, 2, 3]).2.headI) 8).toOption.map Packet.packetNumber = some 2 ∧
    (2 : ℕ) ≠ 1 := by
  refine ⟨by decide, by decide, by decide, by decide⟩

set_option maxRecDepth 100000 in
/-- Witness for the amended C2 at a concrete input. -/
theorem handshake_packet_numbers_witness :
    defaultConfig.Valid ∧
    performHandshake testEnv defaultConfig serverHelloWit =
      .ok (clientHelloPktWit, clientHelloDataWit, clientSessionWit) ∧
    cidWit.length = defaultConfig.connectionIdLength ∧
    handleNewHandshake testEnv defaultConfig hubWit0 serverHelloWit cidWit 0 =
      (.ok (svWit, ptWit, dgsWit), hnhWit.2) ∧
    (clientHelloPktWit.packetNumber = 0 ∧
     clientSessionWit.sendPacketNum = 1 ∧
     (unmarshal (clientWrite testEnv defaultConfig clientSessionWit
         [1, 2, 3]).2.headI defaultConfig.connectionIdLength).toOption.map
       Packet.packetNumber = some 2 ∧
     (∃ d, dgsWit = [d] ∧
       (unmarshal d defaultConfig.connectionIdLength).toOption.map
         Packet.packetNumber = some 1) ∧
     ((hubSendToSession testEnv defaultConfig hnhWit.2 svWit
         [9]).1.toOption.map (fun x => x.1.sendPacketNum)) = some 2) :=
  ⟨by decide, by decide, by decide, by decide,
    handshake_packet_numbers testEnv defaultConfig serverHelloWit
      clientHelloPktWit clientHelloDataWit clientSessionWit [1, 2, 3]
      hubWit0 serverHelloWit cidWit 0 svWit ptWit dgsWit hnhWit.2 [9]
      (by decide)
      (fun k n pt2 ad => by simp [testEnv, modelSeal])
      (fun a c => by simp [testEnv])
      (by decide) (by decide) (by decide) (by decide)⟩

/-! ## Key schedule mirror (auxiliary, cf. the C7 discussion)

The direction-swap equalities of DeriveSessionKeys hold structurally,
for any key-derivation primitive; the remaining distinctness conjunct
of the specification (`send ≠ recv` for every shared secret and PSK) is
a collision property of HKDF-SHA256 and is not settled here. -/

theorem deriveSessionKeys_mirror (env : Env) (sharedSecret : List ℕ)
    (psk : String) :
    (deriveSessionKeys env sharedSecret psk true).sendKey =
      (deriveSessionKeys env sharedSecret psk false).recvKey ∧
    (deriveSessionKeys env sharedSecret psk true).recvKey =
      (deriveSessionKeys env sharedSecret psk false).sendKey := by
  constructor <;> simp [deriveSessionKeys]

end GameTunnel
